import Mathlib

set_option maxRecDepth 100000

/-!
Verification of the structured-document generation pipeline of the
CT patient-intake system (files `model/benefit_check_summary.py`,
`model/benefit_check_form.py`, `model/soap_note.py`).

The Python code is shallowly embedded: Pydantic models become Lean
structures whose construction-time validation is an `Except`-returning
function; Python dictionaries with a fixed key set become structures of
`Option` fields (`none` = key absent); Python runtime values flowing
through the renderer become the sum type `PyVal`; `Decimal`/`float`
amounts become `ℚ` (the repository only manipulates finite decimal
values; binary floating-point rounding is not modelled, and all
claim-relevant amounts are exactly representable).  Pydantic v2
semantics modelled here, as exercised by this repository:
field validators run only for explicitly supplied values (defaults
bypass validation), and `decimal_places` counts places of the
normalized decimal, so trailing zeros are ignored.
-/

namespace Intake

/-- A Python runtime value, as the renderer and extractors see them:
strings, `float`/`Decimal` numbers (as `ℚ`), `int`s, `datetime.date`
values and `None`. -/
inductive PyVal where
  | str (s : String)
  | float (q : ℚ)
  | int (n : ℤ)
  | date (y m d : Nat)
  | none
deriving DecidableEq

/-- Decimal digit character for `n % 10`. -/
def digitChar (n : Nat) : Char :=
  match n % 10 with
  | 0 => '0' | 1 => '1' | 2 => '2' | 3 => '3' | 4 => '4'
  | 5 => '5' | 6 => '6' | 7 => '7' | 8 => '8' | _ => '9'

/-- Digits of `n` in base 10, most significant first (fuel-driven). -/
def natDigitsAux : Nat → Nat → List Char
  | 0, _ => []
  | fuel + 1, n => if n < 10 then [digitChar n] else natDigitsAux fuel (n / 10) ++ [digitChar (n % 10)]

/-- Decimal representation of a natural number, e.g. `natReprL 1500 = "1500".toList`. -/
def natReprL (n : Nat) : List Char := natDigitsAux (n + 1) n

/-- Decimal representation of an integer (Python `str(int)`). -/
def intReprL (i : ℤ) : List Char :=
  if i < 0 then '-' :: natReprL i.natAbs else natReprL i.natAbs

/-- Zero-padded two-digit field (as in `%m`, `%d`, and cents). -/
def padTwoL (n : Nat) : List Char := if n < 10 then '0' :: natReprL n else natReprL n

/-- Zero-padded four-digit year field (as in `%Y`). -/
def pad4L (n : Nat) : List Char :=
  List.replicate (4 - (natReprL n).length) '0' ++ natReprL n

/-- `str(datetime.date(y, m, d))`, i.e. ISO `YYYY-MM-DD`. -/
def isoDateL (y m d : Nat) : List Char := pad4L y ++ '-' :: padTwoL m ++ '-' :: padTwoL d

/-- `date.strftime('%m/%d/%Y')`. -/
def mmddyyyyL (y m d : Nat) : List Char := padTwoL m ++ '/' :: padTwoL d ++ '/' :: pad4L y

/-- Insert `','` after every third digit of a reversed digit string. -/
def commaGroupRev : List Char → List Char
  | [] => []
  | a :: b :: c :: d :: rest => a :: b :: c :: ',' :: commaGroupRev (d :: rest)
  | l => l

/-- Insert thousands separators into a digit string, as Python `format(n, ',')`. -/
def commaGroupL (ds : List Char) : List Char := (commaGroupRev ds.reverse).reverse

/-- `q * 100` rounded to the nearest integer, ties to even — the rounding
of Python `format(x, '.2f')` on exactly representable inputs.  Computed
on the reduced numerator/denominator so the kernel can evaluate it. -/
def roundCentsHalfEven (q : ℚ) : ℤ :=
  let n := q.num * 100
  let d : ℤ := (q.den : ℤ)
  let f := Int.fdiv n d
  let r2 := 2 * (n - f * d)
  if r2 < d then f
  else if d < r2 then f + 1
  else if f % 2 = 0 then f else f + 1

/-- Python `f"{float(x):,.2f}"`: two decimals, comma-grouped integer part. -/
def formatCurrencyL (q : ℚ) : List Char :=
  let c := roundCentsHalfEven q
  (if c < 0 then ['-'] else []) ++
    commaGroupL (natReprL (c.natAbs / 100)) ++ '.' :: padTwoL (c.natAbs % 100)

/-- String form of `formatCurrencyL`. -/
def formatCurrency (q : ℚ) : String := String.mk (formatCurrencyL q)

/-- Decimal digits of the fraction `r / d` (with `0 ≤ r < d`), up to
`fuel` digits, stopping when the remainder hits zero. -/
def fracDigitsND : Nat → Nat → Nat → List Char
  | 0, _, _ => []
  | fuel + 1, r, d =>
    digitChar (r * 10 / d) :: (if r * 10 % d = 0 then [] else fracDigitsND fuel (r * 10 % d) d)

/-- Python `str(float)` / `f"{x}"` for a float.  Exact for the values this
repository renders (finite decimals; an integral value prints as `N.0`).
The shortest-round-trip repr of non-decimal binary floats is not modelled;
here a decimal expansion (17 digits) stands in for it. -/
def pyFloatReprL (q : ℚ) : List Char :=
  (if q.num < 0 then ['-'] else []) ++
    natReprL (q.num.natAbs / q.den) ++
    '.' :: (if q.den = 1 then ['0'] else fracDigitsND 17 (q.num.natAbs % q.den) q.den)

/-- Python truthiness for the values above. -/
def PyVal.truthy : PyVal → Bool
  | .str s => s ≠ ""
  | .float q => q ≠ 0
  | .int n => n ≠ 0
  | .date _ _ _ => true
  | .none => false

/-- Python `str()` as used by f-string interpolation. -/
def PyVal.pyStr : PyVal → String
  | .str s => s
  | .float q => String.mk (pyFloatReprL q)
  | .int n => String.mk (intReprL n)
  | .date y m d => String.mk (isoDateL y m d)
  | .none => "None"

/-- Numeric value of a digit list. -/
def digitsVal (l : List Char) : Nat := l.foldl (fun a c => a * 10 + (c.toNat - 48)) 0

/-- Python `float(str)` on plain decimal literals: optional sign, integer
digits, optional fractional digits (`"5"`, `"5."`, `".5"`, `"-2.75"`).
Exponents, `inf`/`nan`, underscores and surrounding whitespace — never
produced by this repository — are not modelled and parse as failure. -/
def parsePyFloat (s : String) : Option ℚ :=
  let p : ℚ × List Char :=
    match s.toList with
    | '-' :: r => (-1, r)
    | '+' :: r => (1, r)
    | r => (1, r)
  let ip := p.2.takeWhile (fun c => c != '.')
  let rest := p.2.drop ip.length
  if ip.all Char.isDigit then
    match rest with
    | [] => if ip.isEmpty then Option.none else some (p.1 * (digitsVal ip : ℚ))
    | '.' :: fr =>
      if fr.all Char.isDigit && !(ip.isEmpty && fr.isEmpty) then
        some (p.1 * ((digitsVal ip : ℚ) + (digitsVal fr : ℚ) / (10 : ℚ) ^ fr.length))
      else Option.none
    | _ => Option.none
  else Option.none

/-- ASCII whitespace for Python `str.strip()`. -/
def isSpaceChar (c : Char) : Bool :=
  c == ' ' || c == '\t' || c == '\n' || c == '\r' || c == '\x0b' || c == '\x0c'

/-- Python `str.strip()` (ASCII whitespace; the repository only strips
the space that joins the two name parts). -/
def pyStrip (s : String) : String :=
  String.mk (((s.toList.dropWhile isSpaceChar).reverse.dropWhile isSpaceChar).reverse)

/-- Rendering failure: a value could not be coerced by `float(...)`.
Note the exception (Python `ValueError`/`TypeError`) carries the
offending value, not the name of the field it came from. -/
inductive RenderErr where
  | notFloat (v : PyVal)
deriving DecidableEq

/-- Python `float(v)` on the values the renderer meets. -/
def pyFloat : PyVal → Except RenderErr ℚ
  | .float q => .ok q
  | .int n => .ok (n : ℚ)
  | .str s =>
    match parsePyFloat s with
    | some q => .ok q
    | Option.none => .error (.notFloat (.str s))
  | v => .error (.notFloat v)

/-- Python `a or b`. -/
def pyOr (a b : PyVal) : PyVal := if a.truthy then a else b

/-- Leap-year rule (Gregorian). -/
def isLeap (y : Nat) : Bool := (y % 4 == 0 && y % 100 != 0) || y % 400 == 0

/-- Days in a month. -/
def daysInMonth (y m : Nat) : Nat :=
  if m = 2 then (if isLeap y then 29 else 28)
  else if m = 4 ∨ m = 6 ∨ m = 9 ∨ m = 11 then 30 else 31

/-- `datetime.date.fromisoformat` on the dashed `YYYY-MM-DD` form this
repository stores (other 3.11 compact forms are not modelled; failure
models the `ValueError` the renderer catches and swallows). -/
def parseIsoDate (s : String) : Option (Nat × Nat × Nat) :=
  match s.toList with
  | [y1, y2, y3, y4, '-', m1, m2, '-', d1, d2] =>
    if [y1, y2, y3, y4, m1, m2, d1, d2].all Char.isDigit then
      let y := digitsVal [y1, y2, y3, y4]
      let m := digitsVal [m1, m2]
      let d := digitsVal [d1, d2]
      if 1 ≤ y ∧ 1 ≤ m ∧ m ≤ 12 ∧ 1 ≤ d ∧ d ≤ daysInMonth y m then some (y, m, d)
      else Option.none
    else Option.none
  | _ => Option.none

end Intake

namespace Intake

/-- The flat display mapping built by the extractors and consumed by the
renderer (`extracted_data` in `benefit_check_summary.py`).  A field is
`none` exactly when the corresponding dictionary key is absent; a present
key holding Python `None` is `some PyVal.none`. -/
structure ExtractedData where
  client_name : Option PyVal
  insurance_company : Option PyVal
  benefits_checked_on : Option PyVal
  individual_deductible : Option PyVal
  individual_deductible_met : Option PyVal
  family_deductible : Option PyVal
  family_deductible_met : Option PyVal
  individual_opm : Option PyVal
  individual_opm_met : Option PyVal
  family_opm : Option PyVal
  family_opm_met : Option PyVal
  copay_per_visit : Option PyVal
  coinsurance_percentage : Option PyVal
  prior_auth_required : Option PyVal
  max_cap_exists : Option PyVal
  max_cap_amount : Option PyVal
  visit_limit_per_year : Option PyVal
  cap_visit_limit_value : Option PyVal
  other_benefit_details : Option PyVal
deriving DecidableEq

/-- `client_information` section of a raw benefit-check mapping. -/
structure RawClientInformation where
  child_first_name : Option PyVal
  child_last_name : Option PyVal
deriving DecidableEq

/-- `insurance_information` section of a raw benefit-check mapping. -/
structure RawInsuranceInformation where
  plan_name : Option PyVal
deriving DecidableEq

/-- `individual_family_benefit_information` section of a raw mapping. -/
structure RawIndividualFamilyBenefitInformation where
  individual_deductible : Option PyVal
  individual_deductible_met : Option PyVal
  family_deductible : Option PyVal
  family_deductible_met : Option PyVal
  individual_opm : Option PyVal
  individual_opm_met : Option PyVal
  family_opm : Option PyVal
  family_opm_met : Option PyVal
  copay_per_visit : Option PyVal
  coinsurance_percentage : Option PyVal
deriving DecidableEq

/-- `benefit_details` section of a raw benefit-check mapping. -/
structure RawBenefitDetails where
  prior_auth_required_therapy : Option PyVal
  max_cap_exists : Option PyVal
  max_cap_amount : Option PyVal
  visit_limit_per_year : Option PyVal
deriving DecidableEq

/-- `payor_contact_information` section of a raw benefit-check mapping. -/
structure RawPayorContactInformation where
  date_of_call : Option PyVal
deriving DecidableEq

/-- `other_benefit_details` section of a raw benefit-check mapping. -/
structure RawOtherBenefitDetails where
  benefit_details : Option PyVal
deriving DecidableEq

/-- A raw (untyped) benefit-check form mapping, the `dict` input of
`BenefitSummaryTextGenerator`.  Sections may be absent (`self.data.get(k, {})`). -/
structure RawBenefitCheckData where
  client_information : Option RawClientInformation
  insurance_information : Option RawInsuranceInformation
  individual_family_benefit_information : Option RawIndividualFamilyBenefitInformation
  benefit_details : Option RawBenefitDetails
  payor_contact_information : Option RawPayorContactInformation
  other_benefit_details : Option RawOtherBenefitDetails
deriving DecidableEq

/-- `section.get(key, dflt)` through a possibly-absent section dict. -/
def rawGet {α : Type} (sec : Option α) (f : α → Option PyVal) (dflt : PyVal) : PyVal :=
  match sec with
  | some s => (f s).getD dflt
  | Option.none => dflt

/-- `BenefitSummaryTextGenerator._extract_from_raw_data`. -/
def extract_from_raw_data (r : RawBenefitCheckData) : ExtractedData where
  client_name := some (.str (pyStrip
    ((rawGet r.client_information (fun c => c.child_first_name) (.str "")).pyStr ++ " " ++
     (rawGet r.client_information (fun c => c.child_last_name) (.str "")).pyStr)))
  insurance_company := some (rawGet r.insurance_information (fun c => c.plan_name) (.str ""))
  benefits_checked_on := some (rawGet r.payor_contact_information (fun c => c.date_of_call) (.str ""))
  individual_deductible := some (rawGet r.individual_family_benefit_information (fun c => c.individual_deductible) (.int 0))
  individual_deductible_met := some (rawGet r.individual_family_benefit_information (fun c => c.individual_deductible_met) (.int 0))
  family_deductible := some (rawGet r.individual_family_benefit_information (fun c => c.family_deductible) (.int 0))
  family_deductible_met := some (rawGet r.individual_family_benefit_information (fun c => c.family_deductible_met) (.int 0))
  individual_opm := some (rawGet r.individual_family_benefit_information (fun c => c.individual_opm) (.int 0))
  individual_opm_met := some (rawGet r.individual_family_benefit_information (fun c => c.individual_opm_met) (.int 0))
  family_opm := some (rawGet r.individual_family_benefit_information (fun c => c.family_opm) (.int 0))
  family_opm_met := some (rawGet r.individual_family_benefit_information (fun c => c.family_opm_met) (.int 0))
  copay_per_visit := some (rawGet r.individual_family_benefit_information (fun c => c.copay_per_visit) (.int 0))
  coinsurance_percentage := some (rawGet r.individual_family_benefit_information (fun c => c.coinsurance_percentage) (.int 0))
  prior_auth_required := some (rawGet r.benefit_details (fun c => c.prior_auth_required_therapy) (.str "No"))
  max_cap_exists := some (rawGet r.benefit_details (fun c => c.max_cap_exists) (.str "No"))
  max_cap_amount := some (rawGet r.benefit_details (fun c => c.max_cap_amount) .none)
  visit_limit_per_year := some (rawGet r.benefit_details (fun c => c.visit_limit_per_year) .none)
  cap_visit_limit_value := Option.none
  other_benefit_details := some (rawGet r.other_benefit_details (fun c => c.benefit_details) (.str ""))

/-- The `CopaySummary` Pydantic model (its two pattern-constrained fields
hold `"Yes"`/`"No"` strings in every validated instance). -/
structure CopaySummary where
  client_name : String
  insurance_company : String
  benefits_checked_on : Nat × Nat × Nat
  copay_amount : ℚ
  is_preauthorization_required : String
  maximum_annual_cap_or_visit_limit : String
  cap_visit_limit_value : Option String
  other_benefit_details : Option String
deriving DecidableEq

/-- The `DeductibleSummary` Pydantic model. -/
structure DeductibleSummary where
  client_name : String
  insurance_company : String
  benefits_checked_on : Nat × Nat × Nat
  deductible_individual_total : ℚ
  deductible_individual_remaining : ℚ
  deductible_family_total : ℚ
  deductible_family_remaining : ℚ
  coinsurance_individual_total : ℚ
  coinsurance_family_total : ℚ
  out_of_pocket_maximum_individual_total : ℚ
  out_of_pocket_maximum_individual_remaining : ℚ
  out_of_pocket_maximum_family_total : ℚ
  out_of_pocket_maximum_family_remaining : ℚ
  is_preauthorization_required : String
  maximum_annual_cap_or_visit_limit : String
  cap_visit_limit_text : Option String
  out_of_pocket_amounts_above : Option String
  other_benefit_details : Option String
deriving DecidableEq

/-- A Python `Optional[str]` attribute as a runtime value. -/
def optStrVal : Option String → PyVal
  | some s => .str s
  | Option.none => .none

/-- `BenefitSummaryTextGenerator._extract_from_model`, `CopaySummary` branch. -/
def extract_from_model_copay (c : CopaySummary) : ExtractedData where
  client_name := some (.str c.client_name)
  insurance_company := some (.str c.insurance_company)
  benefits_checked_on := some (.date c.benefits_checked_on.1 c.benefits_checked_on.2.1 c.benefits_checked_on.2.2)
  individual_deductible := Option.none
  individual_deductible_met := Option.none
  family_deductible := Option.none
  family_deductible_met := Option.none
  individual_opm := Option.none
  individual_opm_met := Option.none
  family_opm := Option.none
  family_opm_met := Option.none
  copay_per_visit := some (.float c.copay_amount)
  coinsurance_percentage := Option.none
  prior_auth_required := some (.str c.is_preauthorization_required)
  max_cap_exists := some (.str c.maximum_annual_cap_or_visit_limit)
  max_cap_amount := Option.none
  visit_limit_per_year := Option.none
  cap_visit_limit_value := some (optStrVal c.cap_visit_limit_value)
  other_benefit_details := some (optStrVal c.other_benefit_details)

/-- `BenefitSummaryTextGenerator._extract_from_model`, `DeductibleSummary`
branch.  Note the source maps the model's `*_remaining` attributes onto
the `*_met` display keys. -/
def extract_from_model_deductible (c : DeductibleSummary) : ExtractedData where
  client_name := some (.str c.client_name)
  insurance_company := some (.str c.insurance_company)
  benefits_checked_on := some (.date c.benefits_checked_on.1 c.benefits_checked_on.2.1 c.benefits_checked_on.2.2)
  individual_deductible := some (.float c.deductible_individual_total)
  individual_deductible_met := some (.float c.deductible_individual_remaining)
  family_deductible := some (.float c.deductible_family_total)
  family_deductible_met := some (.float c.deductible_family_remaining)
  individual_opm := some (.float c.out_of_pocket_maximum_individual_total)
  individual_opm_met := some (.float c.out_of_pocket_maximum_individual_remaining)
  family_opm := some (.float c.out_of_pocket_maximum_family_total)
  family_opm_met := some (.float c.out_of_pocket_maximum_family_remaining)
  copay_per_visit := Option.none
  coinsurance_percentage := some (.float c.coinsurance_individual_total)
  prior_auth_required := some (.str c.is_preauthorization_required)
  max_cap_exists := some (.str c.maximum_annual_cap_or_visit_limit)
  max_cap_amount := Option.none
  visit_limit_per_year := Option.none
  cap_visit_limit_value := some (optStrVal c.cap_visit_limit_text)
  other_benefit_details := some (optStrVal c.other_benefit_details)

end Intake

namespace Intake

/-- Literal text of the report template before `{client_name}`. -/
def hdrLit1 : String := "INSURANCE BENEFIT INFORMATION\nPlease be aware, this is on a quote of benefits. We cannot guarantee payment or verify that definite eligibility of benefits\nconveyed to us or to you by your carrier will be accurate or complete. Payment of benefits are subject to all terms, conditions,\nand exclusions of the member\x27s contract at the time of service. Initial Assessments, therapy, and reassessments do all carry a\ncharge, and are billed to your insurance company. Assessments can take up to 4 days, utilizing up to 2 hours a day required by\ninsurance companies. Although the assessment in person may take just one to two days, the full report to write, and complete\ncan take up to four days. The client is responsible for all \"patient responsibility\" deemed by the insurance company. We\nsuggest that you reach out to your insurance company as well and verify your benefits to ensure a full understanding of the\nresponsibilities the client may have.\n\nClient Name: "

/-- Template text between `{client_name}` and `{insurance_company}`. -/
def hdrLit2 : String := "\n\nInsurance Company: "

/-- Template text between `{insurance_company}` and `{benefits_checked}`. -/
def hdrLit3 : String := "\n\nBenefits Checked: "

/-- Deductible-section template pieces. -/
def dedLit1 : String := "\n\nINDIVIDUAL DEDUCTIBLE: $"

/-- Deductible-section template pieces. -/
def dedLit2 : String := "\n\nINDIVIDUAL DEDUCTIBLE MET: $"

/-- Deductible-section template pieces. -/
def dedLit3 : String := "\n\nFAMILY DEDUCTIBLE: $"

/-- Deductible-section template pieces. -/
def dedLit4 : String := "\n\nFAMILY DEDUCTIBLE MET: $"

/-- Deductible-section template pieces. -/
def dedLit5 : String := "\n\nThis is the total amount a client must pay before insurance starts paying."

/-- Copay-section template pieces. -/
def copLit1 : String := "\n\nCOPAY: $"

/-- Copay-section template pieces. -/
def copLit2 : String := "\n\nThis amount is due at the time of each service. In most cases, copayments go toward the deductible."

/-- Coinsurance-section template pieces. -/
def coinLit1 : String := "\n\nCOINSURANCE: "

/-- Coinsurance-section template pieces. -/
def coinLit2 : String := "%\n\nThis is the percentage of the cost of therapy you will pay once your deductible is met until your out-of-pocket maximum is\nreached."

/-- Out-of-pocket-maximum-section template pieces. -/
def opmLit1 : String := "\n\nINDIVIDUAL OUT OF POCKET MAXIMUM: $"

/-- Out-of-pocket-maximum-section template pieces. -/
def opmLit2 : String := "\n\nINDIVIDUAL OUT OF POCKET MAXIMUM MET: $"

/-- Out-of-pocket-maximum-section template pieces. -/
def opmLit3 : String := "\n\nFAMILY OUT OF POCKET MAXIMUM: $"

/-- Out-of-pocket-maximum-section template pieces. -/
def opmLit4 : String := "\n\nFAMILY OUT OF POCKET MAXIMUM MET: $"

/-- Out-of-pocket-maximum-section template pieces. -/
def opmLit5 : String := "\n\nThis is the maximum pocket expense you will incur during the benefit year. After the out-of-pocket maximum is net, a family\x27s\ninsurance will pay for 100% of all medical bills for the rest of the benefit year."

/-- Preauthorization-section template pieces. -/
def preLit1 : String := "\n\nIS PREAUTHORIZATION REQUIRED? "

/-- Preauthorization-section template pieces. -/
def preLit2 : String := "\n\nThis is a request for approval by insurance before ABA services can be started. This request can take up to a couple of weeks to\nprocess."

/-- Cap/limit-section template pieces. -/
def capLit1 : String := "\n\nIS THERE A MAXIMUM ANNUAL CAP ($) OR VISIT LIMIT: "

/-- Cap detail line prefix. -/
def maxCapLine1 : String := "\nMaximum Annual Cap: $"

/-- Cap detail fallback line prefix (non-numeric cap value). -/
def capDetLine1 : String := "\nCap/Limit Details: "

/-- Visit-limit line prefix. -/
def visitLine1 : String := "\nAnnual Visit Limit: "

/-- Visit-limit line suffix. -/
def visitLine2 : String := " visits"

/-- Other-benefit-details section header (followed by the verbatim value). -/
def otherLine1 : String := "\n\nOTHER BENEFIT DETAILS:\n"

/-- Signature trailer. -/
def sigLine1 : String := "\n\nSignature of Guardian/Parent_________________________________ Date: _____________________________"

/-- The `{extracted_data.get('client_name', 'N/A')}` interpolation. -/
def clientNameStr (e : ExtractedData) : String := (e.client_name.getD (.str "N/A")).pyStr

/-- The `{extracted_data.get('insurance_company', 'N/A')}` interpolation. -/
def insuranceCompanyStr (e : ExtractedData) : String := (e.insurance_company.getD (.str "N/A")).pyStr

/-- The `benefits_checked` value after the renderer's date normalization:
a `date` is rendered `MM/DD/YYYY`; a non-empty ISO string is parsed and
reformatted, with parse failure swallowed (`except: pass`); anything else
is interpolated with `str()`. -/
def benefitsCheckedStr (e : ExtractedData) : String :=
  match e.benefits_checked_on.getD (.str "") with
  | .date y m d => String.mk (mmddyyyyL y m d)
  | .str s =>
    if s = "" then s
    else
      match parseIsoDate s with
      | some (y, m, d) => String.mk (mmddyyyyL y m d)
      | Option.none => s
  | v => v.pyStr

/-- The `{prior_auth}` interpolation (`.get('prior_auth_required', 'No')`). -/
def priorAuthStr (e : ExtractedData) : String := (e.prior_auth_required.getD (.str "No")).pyStr

/-- `extracted_data.get('max_cap_exists', 'No')`. -/
def maxCapExistsVal (e : ExtractedData) : PyVal := e.max_cap_exists.getD (.str "No")

/-- `extracted_data.get('cap_visit_limit_value') or extracted_data.get('max_cap_amount')`. -/
def capValueVal (e : ExtractedData) : PyVal :=
  pyOr (e.cap_visit_limit_value.getD .none) (e.max_cap_amount.getD .none)

/-- `extracted_data.get('visit_limit_per_year')`. -/
def visitLimitVal (e : ExtractedData) : PyVal := e.visit_limit_per_year.getD .none

/-- Cap/limit detail lines, emitted only when `max_cap_exists == "Yes"`:
a truthy cap value is formatted as currency when `float()` succeeds
(failure caught, value echoed), and a truthy visit limit adds its line. -/
def capDetailStr (e : ExtractedData) : String :=
  (if (capValueVal e).truthy then
    match pyFloat (capValueVal e) with
    | .ok q => maxCapLine1 ++ formatCurrency q
    | .error _ => capDetLine1 ++ (capValueVal e).pyStr
  else "") ++
  (if (visitLimitVal e).truthy then visitLine1 ++ (visitLimitVal e).pyStr ++ visitLine2 else "")

/-- The whole cap/limit section. -/
def capSectionStr (e : ExtractedData) : String :=
  capLit1 ++ (maxCapExistsVal e).pyStr ++
    (if maxCapExistsVal e = .str "Yes" then capDetailStr e else "")

/-- `extracted_data.get('other_benefit_details', '')`. -/
def otherVal (e : ExtractedData) : PyVal := e.other_benefit_details.getD (.str "")

/-- The OTHER BENEFIT DETAILS section: present exactly when the value is truthy. -/
def otherSectionStr (e : ExtractedData) : String :=
  if (otherVal e).truthy then otherLine1 ++ (otherVal e).pyStr else ""

/-- Deductible section with its four formatted amounts. -/
def dedSection (a b c d : ℚ) : String :=
  dedLit1 ++ formatCurrency a ++ dedLit2 ++ formatCurrency b ++
    dedLit3 ++ formatCurrency c ++ dedLit4 ++ formatCurrency d ++ dedLit5

/-- Out-of-pocket-maximum section with its four formatted amounts. -/
def opmSection (a b c d : ℚ) : String :=
  opmLit1 ++ formatCurrency a ++ opmLit2 ++ formatCurrency b ++
    opmLit3 ++ formatCurrency c ++ opmLit4 ++ formatCurrency d ++ opmLit5

/-- `BenefitSummaryTextGenerator.generate_summary_text` on the flat
mapping: coercions run in source order (deductible block if its key is
present, copay, coinsurance, OPM block if present), the first failing
`float()` aborting the render with the offending value. -/
def generate_summary_text (e : ExtractedData) : Except RenderErr String := do
  let dedPart ←
    if e.individual_deductible.isSome then do
      let a ← pyFloat (e.individual_deductible.getD (.int 0))
      let b ← pyFloat (e.individual_deductible_met.getD (.int 0))
      let c ← pyFloat (e.family_deductible.getD (.int 0))
      let d ← pyFloat (e.family_deductible_met.getD (.int 0))
      pure (dedSection a b c d)
    else pure ""
  let cop ← pyFloat (e.copay_per_visit.getD (.int 0))
  let coin ← pyFloat (e.coinsurance_percentage.getD (.int 0))
  let opmPart ←
    if e.individual_opm.isSome then do
      let a ← pyFloat (e.individual_opm.getD (.int 0))
      let b ← pyFloat (e.individual_opm_met.getD (.int 0))
      let c ← pyFloat (e.family_opm.getD (.int 0))
      let d ← pyFloat (e.family_opm_met.getD (.int 0))
      pure (opmSection a b c d)
    else pure ""
  pure (hdrLit1 ++ clientNameStr e ++ hdrLit2 ++ insuranceCompanyStr e ++
    hdrLit3 ++ benefitsCheckedStr e ++ dedPart ++
    copLit1 ++ formatCurrency cop ++ copLit2 ++
    coinLit1 ++ String.mk (pyFloatReprL coin) ++ coinLit2 ++ opmPart ++
    preLit1 ++ priorAuthStr e ++ preLit2 ++
    capSectionStr e ++ otherSectionStr e ++ sigLine1)

/-- The report store (filename ↦ contents); writes shadow older entries,
modelling file overwrite. -/
def Store := List (String × String)

/-- Write (or overwrite) a named report artifact. -/
def Store.put (st : Store) (k v : String) : Store := (k, v) :: st

/-- Read the current contents of a named artifact. -/
def Store.get (st : Store) (k : String) : Option String :=
  (List.lookup k st)

/-- `BenefitSummaryTextGenerator.save_to_file`: the text is generated
first; only on success is the file opened and written, so a rendering
failure leaves the store untouched.  Returns the filename. -/
def save_to_file (e : ExtractedData) (filename : String) (st : Store) :
    Except RenderErr String × Store :=
  match generate_summary_text e with
  | .error err => (.error err, st)
  | .ok t => (.ok filename, st.put filename t)

/-- The result dictionary of `get_summary_display`. -/
structure SummaryDisplay where
  summary_text : String
  filename : String
  status : String
deriving DecidableEq

/-- `BenefitSummaryTextGenerator.get_summary_display`: renders, then
calls `save_to_file()` with its default filename `benefit_summary.txt`. -/
def get_summary_display (e : ExtractedData) (st : Store) :
    Except RenderErr SummaryDisplay × Store :=
  match generate_summary_text e with
  | .error err => (.error err, st)
  | .ok t =>
    match save_to_file e "benefit_summary.txt" st with
    | (.ok fn, st2) => (.ok ⟨t, fn, "generated"⟩, st2)
    | (.error err, st2) => (.error err, st2)

/-- `generate_benefit_summary_from_raw_data`: builds a generator over the
raw mapping and returns `get_summary_display()`.  Its `filename`
parameter is accepted but never forwarded (the source never passes it
on), so every call writes `benefit_summary.txt`. -/
def generate_benefit_summary_from_raw_data (raw : RawBenefitCheckData)
    (filename : String) (st : Store) : Except RenderErr SummaryDisplay × Store :=
  let _ := filename
  get_summary_display (extract_from_raw_data raw) st

end Intake

namespace Intake.soap_note

/-- `StatusEnum` from `soap_note.py`. -/
inductive StatusEnum where
  | DECISION_NEEDED
  | ON_HOLD
  | APPROVED_FOR_INTAKE
deriving DecidableEq

/-- `DocumentStatusEnum` from `soap_note.py`. -/
inductive DocumentStatusEnum where
  | NOT_STARTED
  | COMPLETED
  | ARCHIVED
deriving DecidableEq

/-- `PlaceOfServiceBenefitEnum` from `soap_note.py`. -/
inductive PlaceOfServiceBenefitEnum where
  | COPAY
  | COINSURANCE
  | NOT_COVERED
deriving DecidableEq

/-- A constructor argument for an optional Pydantic field: either omitted
(the declared default is used and, per Pydantic v2 with
`validate_default=False`, no validator runs) or explicitly given (its
value — even `None` — goes through the field validators). -/
inductive Arg (α : Type) where
  | omitted
  | given (v : α)
deriving DecidableEq

/-- Python falsiness of an `Optional[str]` value (`not v`). -/
def falsyOptStr : Option String → Bool
  | Option.none => true
  | some s => s == ""

/-- `ClientDetails` (no cross-field constraints). -/
structure ClientDetails where
  intake_client_id : ℤ
  client_first_name : String
  client_last_name : String
  birth_date : Nat × Nat × Nat
  clinic_preference_1 : Option String
  clinic_preference_2 : Option String
  clinic_preference_3 : Option String
  availability_for_sessions : String
deriving DecidableEq

/-- `AvailableForIntakeInfo`. -/
structure AvailableForIntakeInfo where
  status : StatusEnum
  hold_reason : Option String
  follow_up_notes : Option String
deriving DecidableEq

/-- Construction-time validation of `AvailableForIntakeInfo`: the
`validate_hold_reason` field validator rejects a falsy `hold_reason`
when `status` is On Hold, but — Pydantic v2 semantics — only runs when
`hold_reason` is explicitly supplied; `follow_up_notes` carries
`min_length=50`, likewise checked only on supplied strings. -/
def AvailableForIntakeInfo.validate (status : StatusEnum)
    (hold_reason : Arg (Option String)) (follow_up_notes : Arg (Option String)) :
    Except String AvailableForIntakeInfo := do
  let hr ←
    match hold_reason with
    | .omitted => pure Option.none
    | .given v =>
      if status == .ON_HOLD && falsyOptStr v then
        throw "Hold reason is required when status is On Hold"
      else pure v
  let fu ←
    match follow_up_notes with
    | .omitted => pure Option.none
    | .given Option.none => pure Option.none
    | .given (some s) =>
      if s.length < 50 then throw "String should have at least 50 characters"
      else pure (some s)
  pure ⟨status, hr, fu⟩

/-- `InsuranceInformation` of `soap_note.py`. -/
structure InsuranceInformation where
  plan_name : String
deriving DecidableEq

/-- `BenefitDetails` of `soap_note.py`. -/
structure BenefitDetails where
  prior_auth_required_evaluation : Bool
  prior_auth_required_therapy : Bool
  prior_auth_info : Option String
  has_max_cap : Bool
  max_cap_amount : Option ℚ
  visit_limit_per_year : Option ℤ
deriving DecidableEq

/-- Construction-time validation of the SOAP `BenefitDetails`:
`prior_auth_info` must be truthy when either prior-auth flag is set, and
`max_cap_amount` / `visit_limit_per_year` must not be `None` when
`has_max_cap` is set — each check running only for explicitly supplied
values (omitted fields keep their `None` default unvalidated). -/
def BenefitDetails.validate (prior_auth_required_evaluation prior_auth_required_therapy : Bool)
    (prior_auth_info : Arg (Option String)) (has_max_cap : Bool)
    (max_cap_amount : Arg (Option ℚ)) (visit_limit_per_year : Arg (Option ℤ)) :
    Except String BenefitDetails := do
  let pai ←
    match prior_auth_info with
    | .omitted => pure Option.none
    | .given v =>
      if (prior_auth_required_evaluation || prior_auth_required_therapy) && falsyOptStr v then
        throw "Prior authorization information is required when prior auth is needed"
      else pure v
  let mca ←
    match max_cap_amount with
    | .omitted => pure Option.none
    | .given v =>
      if has_max_cap && v.isNone then
        throw "max_cap_amount is required when max cap is enabled"
      else pure v
  let vl ←
    match visit_limit_per_year with
    | .omitted => pure Option.none
    | .given v =>
      if has_max_cap && v.isNone then
        throw "visit_limit_per_year is required when max cap is enabled"
      else pure v
  pure ⟨prior_auth_required_evaluation, prior_auth_required_therapy, pai, has_max_cap, mca, vl⟩

/-- `PlaceOfServiceBenefits` of `soap_note.py` (enum-typed, no validators). -/
structure PlaceOfServiceBenefits where
  telehealth_pos_02 : PlaceOfServiceBenefitEnum
  school_pos_03 : PlaceOfServiceBenefitEnum
  office_pos_11 : PlaceOfServiceBenefitEnum
  home_pos_12 : PlaceOfServiceBenefitEnum
  community_pos_99 : PlaceOfServiceBenefitEnum
deriving DecidableEq

/-- `DocumentInformation` of `soap_note.py`. -/
structure DocumentInformation where
  document_status : DocumentStatusEnum
  date_time_completed : Option Nat
  completed_by : Option String
  place_of_service_covered : Option String
  follow_up_notes : Option String
deriving DecidableEq

/-- Construction-time validation of `DocumentInformation` — only the
`min_length=50` constraint on an explicitly supplied `follow_up_notes`
string can fail.  `datetime` values are opaque ticks here. -/
def DocumentInformation.validate (document_status : DocumentStatusEnum)
    (date_time_completed : Option Nat) (completed_by : Option String)
    (place_of_service_covered : Option String) (follow_up_notes : Arg (Option String)) :
    Except String DocumentInformation := do
  let fu ←
    match follow_up_notes with
    | .omitted => pure Option.none
    | .given Option.none => pure Option.none
    | .given (some s) =>
      if s.length < 50 then throw "String should have at least 50 characters"
      else pure (some s)
  pure ⟨document_status, date_time_completed, completed_by, place_of_service_covered, fu⟩

/-- `SOAPComponents` (four required free-text fields, unconstrained). -/
structure SOAPComponents where
  subjective : String
  objective : String
  assessment : String
  plan : String
deriving DecidableEq

/-- The complete `SOAPNote` model.  `created_at` (default
`datetime.now()`) and `updated_at` are opaque ticks; the model itself
declares no validators, so assembling already-validated sub-models
cannot fail. -/
structure SOAPNote where
  soap_components : SOAPComponents
  client_details : ClientDetails
  available_for_intake_info : AvailableForIntakeInfo
  insurance_information : InsuranceInformation
  benefit_details : BenefitDetails
  place_of_service_benefits : PlaceOfServiceBenefits
  document_information : DocumentInformation
  created_at : Nat
  updated_at : Option Nat
  created_by : String
deriving DecidableEq

/-- Sample subjective narratives of `create_synthetic_soap_note`. -/
def subjective_options : List String := [
  "Patient reports feeling overwhelmed with work responsibilities and experiencing sleep difficulties for the past 2 weeks. States that symptoms include difficulty falling asleep, frequent waking during the night, and feeling tired during the day. Reports increased irritability and difficulty concentrating at work.",
  "Client describes persistent worry about family finances and reports physical symptoms including headaches and muscle tension. States that worrying thoughts are constant and interfere with daily activities. Reports avoiding social situations due to anxiety.",
  "Patient states they have been feeling sad and unmotivated for the past month, with decreased appetite and social withdrawal. Reports loss of interest in previously enjoyable activities and feelings of hopelessness. Denies suicidal ideation but reports feeling \x27empty\x27 most days.",
  "Client reports difficulty managing anger and frustration, particularly in interpersonal relationships. States that anger episodes are becoming more frequent and intense, leading to relationship conflicts. Reports feeling guilty after anger outbursts.",
  "Patient describes panic attacks occurring 2-3 times per week, with symptoms including rapid heartbeat, shortness of breath, sweating, and feelings of impending doom. Reports avoiding situations where panic attacks have occurred previously."]

/-- Sample objective narratives of `create_synthetic_soap_note`. -/
def objective_options : List String := [
  "Patient appears well-groomed and cooperative. Maintains appropriate eye contact throughout session. Speech is clear and goal-directed with normal rate and tone. Mood appears anxious with congruent affect. Thought process is linear and organized. No evidence of perceptual disturbances or psychosis. Insight appears good.",
  "Client maintains good eye contact and appears alert and oriented x3. Speech is soft-spoken but coherent with appropriate content. Mood appears depressed with restricted affect. Psychomotor activity is slightly slowed. Thought content reveals themes of self-blame and worthlessness. No suicidal or homicidal ideation expressed.",
  "Patient appears restless and fidgety during session. Speech is rapid and pressured at times. Mood appears irritable with somewhat labile affect. Demonstrates poor frustration tolerance during interview. Thought process is tangential at times but redirects appropriately. Insight is limited regarding impact of behavior.",
  "Client appears calm and engaged throughout the session. Speech is clear, organized, and goal-directed. Mood appears stable with appropriate affect that is congruent with stated mood. Thought process is linear and logical. Demonstrates good insight into current stressors and symptoms.",
  "Patient appears tired but cooperative. Speech is slow and deliberate with increased latency of response. Mood appears dysthymic with blunted affect. Psychomotor activity is slowed. Reports decreased energy and motivation. Cognitive functioning appears intact despite slowed processing."]

/-- Sample assessments of `create_synthetic_soap_note`. -/
def assessment_options : List String := [
  "Generalized Anxiety Disorder (F41.1). Patient presents with excessive worry and physical symptoms of anxiety that significantly impair occupational and social functioning. Symptoms have persisted for over 6 months and meet criteria for GAD. Sleep disturbance and concentration difficulties are consistent with anxiety disorder.",
  "Major Depressive Disorder, single episode, moderate severity (F32.1). Patient presents with persistent depressed mood, anhedonia, sleep disturbance, and decreased appetite for duration exceeding 2 weeks. Symptoms represent significant change from previous functioning and cause clinically significant distress.",
  "Adjustment Disorder with Mixed Anxiety and Depressed Mood (F43.23). Patient\x27s symptoms appear directly related to recent life stressors and represent maladaptive response to identifiable psychosocial stressors. Symptoms exceed normal expected response and cause significant functional impairment.",
  "Panic Disorder without Agoraphobia (F41.0). Patient experiences recurrent unexpected panic attacks with persistent concern about additional attacks. Physical symptoms during attacks include cardiorespiratory symptoms consistent with panic disorder. No evidence of agoraphobic avoidance at this time.",
  "Intermittent Explosive Disorder (F63.81). Patient demonstrates recurrent behavioral outbursts representing failure to resist aggressive impulses. Episodes are out of proportion to precipitating stressors and cause significant distress and functional impairment in relationships."]

/-- Sample plans of `create_synthetic_soap_note`. -/
def plan_options : List String := [
  "1. Initiate weekly individual psychotherapy using Cognitive Behavioral Therapy (CBT) approach to address anxiety symptoms and maladaptive thought patterns. 2. Implement relaxation techniques including progressive muscle relaxation and deep breathing exercises. 3. Develop sleep hygiene strategies to improve sleep quality. 4. Monitor symptoms weekly and reassess treatment plan in 4 weeks. 5. Consider psychiatric consultation if symptoms do not improve.",
  "1. Begin individual psychotherapy twice weekly using CBT and behavioral activation techniques. 2. Implement activity scheduling to increase engagement in pleasant activities. 3. Develop coping strategies for depressive thoughts and mood episodes. 4. Safety planning and ongoing risk assessment for suicidal ideation. 5. Follow-up appointment in 1 week with phone check-in mid-week. 6. Consider psychiatric evaluation for medication management.",
  "1. Start supportive therapy sessions weekly to process recent life changes and develop adaptive coping strategies. 2. Provide psychoeducation about adjustment disorders and normal stress responses. 3. Develop problem-solving skills to address current stressors. 4. Implement stress management techniques. 5. Reassess symptoms and functioning in 3 weeks. 6. Plan for symptom monitoring as stressors resolve.",
  "1. Begin panic disorder treatment protocol using CBT and exposure therapy techniques. 2. Teach breathing exercises and grounding techniques for acute panic episodes. 3. Implement gradual exposure therapy to previously avoided situations. 4. Psychoeducation about panic disorder and anxiety management. 5. Weekly sessions for initial 8 weeks with reassessment of progress. 6. Consider psychiatric consultation for medication evaluation.",
  "1. Initiate anger management therapy focusing on cognitive restructuring and impulse control strategies. 2. Develop trigger identification and early warning sign recognition. 3. Implement relaxation and stress management techniques. 4. Practice conflict resolution and communication skills. 5. Bi-weekly sessions initially with transition to weekly as symptoms stabilize. 6. Include family/relationship therapy as appropriate."]

/-- Clinic-preference pools of `create_synthetic_soap_note`. -/
def clinic1_options : List String :=
  ["Downtown Clinic", "Northside Clinic", "Westside Clinic", "Eastside Clinic"]

/-- Clinic-preference pools of `create_synthetic_soap_note`. -/
def clinic2_options : List String :=
  ["Community Health Center", "Wellness Center", "Mental Health Clinic"]

/-- Clinic-preference pools of `create_synthetic_soap_note`. -/
def clinic3_options : List String :=
  ["Telehealth Services", "Mobile Clinic", "University Clinic"]

/-- Availability pool of `create_synthetic_soap_note`. -/
def availability_options : List String :=
  ["Weekdays 9 AM - 5 PM", "Evenings after 6 PM", "Weekends only",
   "Flexible scheduling", "Mornings before 11 AM"]

/-- Insurance-plan pool of `create_synthetic_soap_note`. -/
def plan_name_options : List String :=
  ["Blue Cross Blue Shield Standard", "Aetna Better Health",
   "UnitedHealthcare Community Plan", "Medicaid Managed Care", "Cigna HealthSpring"]

/-- Max-cap pool of `create_synthetic_soap_note`. -/
def max_cap_options : List ℚ := [1500, 2000, 2500, 3000]

/-- Place-of-service-covered pool of `create_synthetic_soap_note`. -/
def pos_covered_options : List String :=
  ["Office, Telehealth", "Office, Home, Community", "Telehealth only",
   "Office, School, Community", "All locations covered"]

/-- Fixed intake follow-up note of `create_synthetic_soap_note`. -/
def intakeFollowUpNote : String :=
  "Client has been processed through intake and is ready for treatment services. All required documentation has been completed and benefit verification is confirmed."

/-- Fixed document follow-up note of `create_synthetic_soap_note`. -/
def documentFollowUpNote : String :=
  "Benefit verification completed successfully. All required authorizations are in place for treatment to begin as scheduled."

/-- `create_synthetic_soap_note`, with every internal `random.choice` /
`random.randint` draw exposed as a parameter: `Fin`-indices select from
the exact literal pools, `status` ranges over the whole `StatusEnum`
domain (`random.choice(list(StatusEnum))`), the prior-auth flags and
`has_max_cap` over both booleans, and the `randint` draws over all
naturals/integers (a superset of their ranges).  `hold_reason` is never
passed — exactly as in the source — while `prior_auth_info`,
`max_cap_amount` and `visit_limit_per_year` are always passed, whatever
the flags.  `now` stands for `datetime.now()`. -/
def create_synthetic_soap_note (client_id : ℤ)
    (client_first_name client_last_name : String) (birth_date : Nat × Nat × Nat)
    (created_by : String) (now : Nat)
    (si oi ai pli : Fin 5) (c1 : Fin 4) (c2 c3 : Fin 3) (av : Fin 5)
    (status : StatusEnum) (plan : Fin 5)
    (prior_auth_required_evaluation prior_auth_required_therapy has_max_cap : Bool)
    (sessions refnum : Nat) (capIdx : Fin 4) (vlimit : ℤ)
    (p1 p2 p3 p4 p5 : PlaceOfServiceBenefitEnum) (posIdx : Fin 5) :
    Except String SOAPNote := do
  let sc : SOAPComponents :=
    ⟨subjective_options.getD si.val "", objective_options.getD oi.val "",
     assessment_options.getD ai.val "", plan_options.getD pli.val ""⟩
  let cd : ClientDetails :=
    ⟨client_id, client_first_name, client_last_name, birth_date,
     some (clinic1_options.getD c1.val ""), some (clinic2_options.getD c2.val ""),
     some (clinic3_options.getD c3.val ""), availability_options.getD av.val ""⟩
  let afi ← AvailableForIntakeInfo.validate status .omitted (.given (some intakeFollowUpNote))
  let ii : InsuranceInformation := ⟨plan_name_options.getD plan.val ""⟩
  let bd ← BenefitDetails.validate prior_auth_required_evaluation prior_auth_required_therapy
    (.given (some ("Prior authorization approved for " ++ String.mk (natReprL sessions) ++
      " sessions, reference number: PA" ++ String.mk (natReprL refnum))))
    has_max_cap
    (.given (some (max_cap_options.getD capIdx.val 0)))
    (.given (some vlimit))
  let pos : PlaceOfServiceBenefits := ⟨p1, p2, p3, p4, p5⟩
  let di ← DocumentInformation.validate .COMPLETED (some now) (some created_by)
    (some (pos_covered_options.getD posIdx.val "")) (.given (some documentFollowUpNote))
  pure ⟨sc, cd, afi, ii, bd, pos, di, now, Option.none, created_by⟩

end Intake.soap_note

namespace Intake.benefit_check_form

/-- `YesNoType = Literal["Yes", "No"]`. -/
inductive YesNo where
  | Yes
  | No
deriving DecidableEq

/-- `InsuranceStatusType`. -/
inductive InsuranceStatus where
  | Primary
  | Secondary
  | Tertiary
  | Inactive
deriving DecidableEq

/-- `DocumentStatusType`. -/
inductive DocumentStatus where
  | NotStarted
  | Completed
  | Archived
deriving DecidableEq

/-- `TaxNumberType`. -/
inductive TaxNumber where
  | PCP
  | Specialist
  | MentalHealthProvider
  | ABAProvider
deriving DecidableEq

/-- `BenefitRunType`. -/
inductive BenefitRun where
  | CalendarYear
  | PlanYear
  | RollingYear
deriving DecidableEq

/-- `BenefitApplyType`. -/
inductive BenefitApply where
  | Individual
  | Family
  | Both
deriving DecidableEq

/-- Integer powers of ten. -/
def pow10 : Nat → ℤ
  | 0 => 1
  | n + 1 => pow10 n * 10

/-- Pydantic v2 `decimal_places=d`: after normalization (trailing zeros
dropped) the value has at most `d` fractional digits; on `ℚ` this means
`q * 10^d` is integral, i.e. the reduced denominator divides
`10^d * num`. -/
def decimalPlacesOk (d : Nat) (q : ℚ) : Bool := q.num * pow10 d % (q.den : ℤ) == 0

/-- One currency/decimal field check: optional `ge=0`, optional
`le=99999`, and `decimal_places`. -/
def checkDecimal (label : String) (places : Nat) (geZero leCap : Bool) (q : ℚ) :
    Except String ℚ :=
  if geZero && decide (q < 0) then throw (label ++ ": input should be greater than or equal to 0")
  else if leCap && decide (99999 < q) then throw (label ++ ": input should be less than or equal to 99999")
  else if !decimalPlacesOk places q then throw (label ++ ": decimal input should have no more decimal places")
  else pure q

/-- `ClientInformation` of `benefit_check_form.py` (unconstrained fields). -/
structure ClientInformation where
  intake_client_id : String
  child_first_name : String
  child_last_name : String
  birth_date : Nat × Nat × Nat
  benefit_verification_forms : List String
deriving DecidableEq

/-- `InsuranceInformation` of `benefit_check_form.py`. -/
structure InsuranceInformation where
  plan_name : String
  coverage_start_date : Nat × Nat × Nat
  coverage_end_date : Nat × Nat × Nat
  plan_address : String
  zirmed_payor_id : String
  subscriber_first_name : String
  subscriber_last_name : String
  subscriber_dob : Nat × Nat × Nat
  subscriber_id : String
deriving DecidableEq

/-- `DocumentInformation` of `benefit_check_form.py` (no length floors here). -/
structure DocumentInformation where
  document_status : DocumentStatus
  date_completed : Option (Nat × Nat × Nat)
  completed_by : Option String
  follow_up_notes : Option String
  next_follow_up_date : Option (Nat × Nat × Nat)
deriving DecidableEq

/-- `IndividualFamilyBenefitInformation` of `benefit_check_form.py`. -/
structure IndividualFamilyBenefitInformation where
  in_network_with_plan : YesNo
  tax_identification_number_processed_as : TaxNumber
  individual_deductible : ℚ
  individual_deductible_met : ℚ
  family_deductible : ℚ
  family_deductible_met : ℚ
  individual_opm : ℚ
  individual_opm_met : ℚ
  family_opm : ℚ
  family_opm_met : ℚ
  accumulations_run_on : BenefitRun
  services_covered_100_percent : YesNo
  individual_or_family_benefit_apply : BenefitApply
  benefit_type_field : String
  coinsurance_percentage : ℚ
  copay_per_visit : ℚ
  copays_apply_to_opm : YesNo
  deductible_apply_to_opm : YesNo
  deductible_before_coinsurance_copay : YesNo
deriving DecidableEq

/-- Construction-time validation of
`IndividualFamilyBenefitInformation`, field by field in declaration
order.  The four totals carry `ge=0, le=99999, decimal_places=0`; the
four met-amounts carry `ge=0, decimal_places=0`; `coinsurance_percentage`
and `copay_per_visit` carry only `decimal_places=0` — the source declares
no lower bound for them. -/
def IndividualFamilyBenefitInformation.validate
    (in_network_with_plan : YesNo) (tax_identification_number_processed_as : TaxNumber)
    (individual_deductible individual_deductible_met family_deductible family_deductible_met
     individual_opm individual_opm_met family_opm family_opm_met : ℚ)
    (accumulations_run_on : BenefitRun) (services_covered_100_percent : YesNo)
    (individual_or_family_benefit_apply : BenefitApply) (benefit_type_field : String)
    (coinsurance_percentage copay_per_visit : ℚ)
    (copays_apply_to_opm deductible_apply_to_opm deductible_before_coinsurance_copay : YesNo) :
    Except String IndividualFamilyBenefitInformation := do
  let idd ← checkDecimal "individual_deductible" 0 true true individual_deductible
  let iddm ← checkDecimal "individual_deductible_met" 0 true false individual_deductible_met
  let fd ← checkDecimal "family_deductible" 0 true true family_deductible
  let fdm ← checkDecimal "family_deductible_met" 0 true false family_deductible_met
  let iopm ← checkDecimal "individual_opm" 0 true true individual_opm
  let iopmm ← checkDecimal "individual_opm_met" 0 true false individual_opm_met
  let fopm ← checkDecimal "family_opm" 0 true true family_opm
  let fopmm ← checkDecimal "family_opm_met" 0 true false family_opm_met
  let coins ← checkDecimal "coinsurance_percentage" 0 false false coinsurance_percentage
  let cop ← checkDecimal "copay_per_visit" 0 false false copay_per_visit
  pure ⟨in_network_with_plan, tax_identification_number_processed_as,
    idd, iddm, fd, fdm, iopm, iopmm, fopm, fopmm,
    accumulations_run_on, services_covered_100_percent, individual_or_family_benefit_apply,
    benefit_type_field, coins, cop,
    copays_apply_to_opm, deductible_apply_to_opm, deductible_before_coinsurance_copay⟩

/-- `PlaceOfServiceBenefits` of `benefit_check_form.py` (Yes/No flags). -/
structure PlaceOfServiceBenefits where
  telehealth_pos_02 : YesNo
  school_pos_03 : YesNo
  office_pos_11 : YesNo
  home_pos_12 : YesNo
  community_pos_99 : YesNo
deriving DecidableEq

/-- `BenefitDetails` of `benefit_check_form.py`. -/
structure BenefitDetails where
  prior_auth_required_evaluation : YesNo
  prior_auth_required_therapy : YesNo
  prior_auth_submission_details : Option String
  max_cap_exists : YesNo
  max_cap_amount : Option ℚ
  visit_limit_per_year : Option ℤ
  pre_existing_conditions_exclusions : YesNo
  pre_existing_details : Option String
deriving DecidableEq

/-- Construction-time validation of the form's `BenefitDetails`: the only
constraint is `decimal_places=2` on a supplied `max_cap_amount`.  There is
no cross-field rule tying `max_cap_amount` or `visit_limit_per_year` to
`max_cap_exists` in this model. -/
def BenefitDetails.validate (prior_auth_required_evaluation prior_auth_required_therapy : YesNo)
    (prior_auth_submission_details : Option String) (max_cap_exists : YesNo)
    (max_cap_amount : Option ℚ) (visit_limit_per_year : Option ℤ)
    (pre_existing_conditions_exclusions : YesNo) (pre_existing_details : Option String) :
    Except String BenefitDetails := do
  let mca ←
    match max_cap_amount with
    | Option.none => pure Option.none
    | some q =>
      if !decimalPlacesOk 2 q then
        throw "max_cap_amount: decimal input should have no more decimal places"
      else pure (some q)
  pure ⟨prior_auth_required_evaluation, prior_auth_required_therapy,
    prior_auth_submission_details, max_cap_exists, mca, visit_limit_per_year,
    pre_existing_conditions_exclusions, pre_existing_details⟩

/-- `CoordinationOfBenefits` of `benefit_check_form.py`. -/
structure CoordinationOfBenefits where
  client_has_other_insurances : YesNo
  other_insurance_information : Option String
  payor_status : InsuranceStatus
  cob_completion_date : Option (Nat × Nat × Nat)
  benefits_match_portal_inquiry : YesNo
  mismatch_reason : Option String
deriving DecidableEq

/-- `PayorContactInformation` of `benefit_check_form.py`. -/
structure PayorContactInformation where
  payor_rep_name : String
  call_reference_number : String
  date_of_call : Nat × Nat × Nat
deriving DecidableEq

/-- `OtherBenefitDetails` of `benefit_check_form.py`. -/
structure OtherBenefitDetails where
  benefit_details : String
deriving DecidableEq

/-- `BenefitCheckSummaryInformation` of `benefit_check_form.py`. -/
structure BenefitCheckSummaryInformation where
  send_benefit_check_summary : YesNo
  popup_benefit_check_summary : YesNo
  document_status : DocumentStatus
  follow_up_notes : Option String
  next_follow_up_date : Option (Nat × Nat × Nat)
deriving DecidableEq

/-- The complete `BenefitCheckForm`. -/
structure BenefitCheckForm where
  client_information : ClientInformation
  insurance_information : InsuranceInformation
  document_information : DocumentInformation
  individual_family_benefit_information : IndividualFamilyBenefitInformation
  place_of_service_benefits : PlaceOfServiceBenefits
  benefit_details : BenefitDetails
  coordination_of_benefits : CoordinationOfBenefits
  payor_contact_information : PayorContactInformation
  other_benefit_details : OtherBenefitDetails
  benefit_check_summary_information : BenefitCheckSummaryInformation
deriving DecidableEq

/-- `generate_synthetic_benefit_check_data`: a parameterless function
whose body is a fixed cascade of literal-valued model constructions —
no random sampling anywhere.  `Decimal("1500.00")`-style literals are
their rational values (Pydantic's normalized `decimal_places` check makes
the trailing zeros irrelevant). -/
def generate_synthetic_benefit_check_data (_u : Unit) : Except String BenefitCheckForm := do
  let client_info : ClientInformation :=
    ⟨"CLT-2024-001573", "Emma", "Johnson", (2018, 3, 15),
     ["BVF-001", "BVF-002", "Initial-Assessment"]⟩
  let insurance_info : InsuranceInformation :=
    ⟨"Blue Cross Blue Shield Premium Plus", (2024, 1, 1), (2024, 12, 31),
     "1234 Healthcare Ave, Suite 100, Chicago, IL 60601", "ZM-BCBS-12345",
     "Michael", "Johnson", (1985, 7, 22), "BCBS789456123"⟩
  let document_info : DocumentInformation :=
    ⟨.Completed, some (2024, 6, 15), some "Sarah Martinez, Benefits Coordinator",
     some "All verification completed successfully. No issues identified.",
     some (2024, 12, 1)⟩
  let benefit_info ← IndividualFamilyBenefitInformation.validate
    .Yes .PCP 1500 450 3000 1200 6000 890 12000 2150
    .CalendarYear .No .Both "Behavioral Health - Outpatient" 20 25 .Yes .Yes .Yes
  let pos_benefits : PlaceOfServiceBenefits := ⟨.Yes, .Yes, .Yes, .Yes, .No⟩
  let benefit_details ← BenefitDetails.validate .No .Yes
    (some "Prior authorization required after 6 sessions. Submit via provider portal with treatment plan and progress notes.")
    .Yes (some 5000) (some 50) .No
    (some "No exclusions apply for behavioral health services")
  let cob_info : CoordinationOfBenefits :=
    ⟨.Yes, some "Secondary: Aetna Better Health (Medicaid) - ID: AET456789",
     .Primary, some (2024, 6, 10), .Yes, Option.none⟩
  let payor_contact : PayorContactInformation :=
    ⟨"Jessica Chen", "REF-BCBS-20240615-001", (2024, 6, 15)⟩
  let other_details : OtherBenefitDetails :=
    ⟨"Plan covers Applied Behavior Analysis (ABA) therapy. Family therapy sessions covered at same rate. Crisis intervention services available 24/7 with no prior authorization required."⟩
  let summary_info : BenefitCheckSummaryInformation :=
    ⟨.Yes, .Yes, .Completed,
     some "Benefits verified and active. Client ready to begin services.",
     some (2024, 12, 1)⟩
  pure ⟨client_info, insurance_info, document_info, benefit_info, pos_benefits,
    benefit_details, cob_info, payor_contact, other_details, summary_info⟩

end Intake.benefit_check_form

namespace Intake

/-- Number of positions at which `m` occurs in `s` (as a contiguous
substring; overlapping occurrences all counted). -/
def occCount (m : List Char) : List Char → Nat
  | [] => 0
  | c :: rest => (if m.isPrefixOf (c :: rest) then 1 else 0) + occCount m rest

/-- Tail-recursive substring test: does `pat` occur in the list? -/
def containsSub (pat : List Char) : List Char → Bool
  | [] => false
  | c :: rest => pat.isPrefixOf (c :: rest) || containsSub pat rest

/-- Tail-recursive check that `m` never occurs in the list (kernel
evaluates it in constant stack, unlike a count). -/
def noOccur (m : List Char) : List Char → Bool
  | [] => true
  | c :: rest => !(m.isPrefixOf (c :: rest)) && noOccur m rest

/-- No occurrence of `m` straddles the boundary between `a` and `b`. -/
def NoStraddle (m a b : List Char) : Prop :=
  ∀ k, 0 < k → k < m.length → ¬ (m.take k <:+ a ∧ m.drop k <+: b)

/-- Decidable check: no nonempty proper prefix of `m` is a suffix of
`lit` — occurrences of `m` cannot start inside `lit` and continue past
it, whatever follows. -/
def leftKilled (m lit : List Char) : Bool :=
  (List.range m.length).all fun k => decide (k = 0) || ! (m.take k).isSuffixOf lit

/-- Decidable check: no nonempty proper suffix of `m` survives as a
prefix once truncated against `pre` — occurrences of `m` cannot end in a
block that starts with `pre`, whatever follows `pre`. -/
def rightKilled (m pre : List Char) : Bool :=
  (List.range m.length).all fun k => decide (k = 0) || ! ((m.drop k).take pre.length).isPrefixOf pre

/-- `s` contains no newline. -/
def noNL (s : String) : Bool := s.toList.all fun c => c != '\n'

/-- The section marker whose occurrences we count: a blank line followed
by the `OTHER BENEFIT DETAILS:` header. -/
def otherNeedle : String := "\n\nOTHER BENEFIT DETAILS:"

/-- Number of OTHER BENEFIT DETAILS section openings in a rendered report. -/
def sectionCount (t : String) : Nat := occCount otherNeedle.toList t.toList

/-- The inline (single-line) interpolations of the benefit-summary
template are newline-free.  The rendered report's line structure — hence
its set of section headers — is then fully determined by the template. -/
def inlineClean (e : ExtractedData) : Bool :=
  noNL (clientNameStr e) && noNL (insuranceCompanyStr e) && noNL (benefitsCheckedStr e) &&
    noNL (priorAuthStr e) && noNL ((maxCapExistsVal e).pyStr) &&
    noNL ((capValueVal e).pyStr) && noNL ((visitLimitVal e).pyStr)

/-- `float()` succeeds on this value. -/
def floatable (v : PyVal) : Bool := (pyFloat v).isOk

/-- Every value the renderer unconditionally (or under its presence
guards) passes to `float()` is coercible. -/
def numsCoercible (e : ExtractedData) : Bool :=
  floatable (e.individual_deductible.getD (.int 0)) &&
    floatable (e.individual_deductible_met.getD (.int 0)) &&
    floatable (e.family_deductible.getD (.int 0)) &&
    floatable (e.family_deductible_met.getD (.int 0)) &&
    floatable (e.individual_opm.getD (.int 0)) &&
    floatable (e.individual_opm_met.getD (.int 0)) &&
    floatable (e.family_opm.getD (.int 0)) &&
    floatable (e.family_opm_met.getD (.int 0)) &&
    floatable (e.copay_per_visit.getD (.int 0)) &&
    floatable (e.coinsurance_percentage.getD (.int 0))

/-- The raw mapping of the spec's end-to-end scenario: client Emma
Johnson, plan Blue Cross Blue Shield Premium Plus, individual deductible
1500.00 with 450.00 met, copay 25.00, coinsurance 20.00, prior-auth
"Yes", max-cap "Yes" with amount 5000.00. -/
def emmaRaw : RawBenefitCheckData where
  client_information := some ⟨some (.str "Emma"), some (.str "Johnson")⟩
  insurance_information := some ⟨some (.str "Blue Cross Blue Shield Premium Plus")⟩
  individual_family_benefit_information := some
    { individual_deductible := some (.float 1500)
      individual_deductible_met := some (.float 450)
      family_deductible := Option.none
      family_deductible_met := Option.none
      individual_opm := Option.none
      individual_opm_met := Option.none
      family_opm := Option.none
      family_opm_met := Option.none
      copay_per_visit := some (.float 25)
      coinsurance_percentage := some (.float 20) }
  benefit_details := some
    { prior_auth_required_therapy := some (.str "Yes")
      max_cap_exists := some (.str "Yes")
      max_cap_amount := some (.float 5000)
      visit_limit_per_year := Option.none }
  payor_contact_information := Option.none
  other_benefit_details := Option.none

/-- A second raw mapping for a different client, used to compare artifact
naming across calls. -/
def liamRaw : RawBenefitCheckData where
  client_information := some ⟨some (.str "Liam"), some (.str "Smith")⟩
  insurance_information := some ⟨some (.str "Aetna Better Health")⟩
  individual_family_benefit_information := some
    { individual_deductible := some (.float 800)
      individual_deductible_met := some (.float 100)
      family_deductible := Option.none
      family_deductible_met := Option.none
      individual_opm := Option.none
      individual_opm_met := Option.none
      family_opm := Option.none
      family_opm_met := Option.none
      copay_per_visit := some (.float 30)
      coinsurance_percentage := some (.float 10) }
  benefit_details := Option.none
  payor_contact_information := Option.none
  other_benefit_details := Option.none

/-- A `DeductibleSummary` carrying the same logical record as `emmaRaw`
(as far as the model can express it). -/
def emmaDeductibleSummary : DeductibleSummary where
  client_name := "Emma Johnson"
  insurance_company := "Blue Cross Blue Shield Premium Plus"
  benefits_checked_on := (2024, 6, 15)
  deductible_individual_total := 1500
  deductible_individual_remaining := 450
  deductible_family_total := 0
  deductible_family_remaining := 0
  coinsurance_individual_total := 20
  coinsurance_family_total := 20
  out_of_pocket_maximum_individual_total := 0
  out_of_pocket_maximum_individual_remaining := 0
  out_of_pocket_maximum_family_total := 0
  out_of_pocket_maximum_family_remaining := 0
  is_preauthorization_required := "Yes"
  maximum_annual_cap_or_visit_limit := "Yes"
  cap_visit_limit_text := some "5000.00"
  out_of_pocket_amounts_above := Option.none
  other_benefit_details := Option.none

/-- A flat mapping whose `individual_deductible` is the non-numeric
string `"abc"`: the deductible block's `float()` raises. -/
def badDeductibleData : ExtractedData where
  client_name := some (.str "Emma Johnson")
  insurance_company := some (.str "Plan")
  benefits_checked_on := some (.str "")
  individual_deductible := some (.str "abc")
  individual_deductible_met := some (.int 0)
  family_deductible := some (.int 0)
  family_deductible_met := some (.int 0)
  individual_opm := some (.int 0)
  individual_opm_met := some (.int 0)
  family_opm := some (.int 0)
  family_opm_met := some (.int 0)
  copay_per_visit := some (.int 0)
  coinsurance_percentage := some (.int 0)
  prior_auth_required := some (.str "No")
  max_cap_exists := some (.str "No")
  max_cap_amount := some .none
  visit_limit_per_year := some .none
  cap_visit_limit_value := Option.none
  other_benefit_details := some (.str "")

/-- The same mapping but with the bad value on `copay_per_visit` instead:
a different offending field, the same offending value. -/
def badCopayData : ExtractedData :=
  { badDeductibleData with
    individual_deductible := some (.int 0)
    copay_per_visit := some (.str "abc") }

end Intake

namespace Intake

theorem prefix_append_left_of_le {m a b : List Char} (h : m <+: a ++ b)
    (hle : m.length ≤ a.length) : m <+: a := by
  have h1 : m = (a ++ b).take m.length := List.prefix_iff_eq_take.mp h
  have h2 : (a ++ b).take m.length = a.take m.length := by
    rw [List.take_append_eq_append_take, Nat.sub_eq_zero_of_le hle, List.take_zero,
      List.append_nil]
  rw [h1, h2]
  exact List.take_prefix _ _

theorem take_prefix_of_prefix_append {m pre rest : List Char} (h : m <+: pre ++ rest) :
    m.take pre.length <+: pre := by
  obtain ⟨t, ht⟩ := h
  have h2 := congrArg (List.take pre.length) ht
  rw [List.take_append_eq_append_take, List.take_left] at h2
  exact ⟨_, h2⟩

theorem suffix_cons_of_suffix {l a : List Char} (c : Char) (h : l <:+ a) : l <:+ c :: a := by
  obtain ⟨t, ht⟩ := h
  exact ⟨c :: t, by rw [List.cons_append, ht]⟩

theorem noStraddle_cons {m a b : List Char} (c : Char) (h : NoStraddle m (c :: a) b) :
    NoStraddle m a b := by
  intro k hk1 hk2 hab
  exact h k hk1 hk2 ⟨suffix_cons_of_suffix c hab.1, hab.2⟩

theorem occCount_append (m : List Char) (hm : m ≠ []) :
    ∀ a b : List Char, NoStraddle m a b →
      occCount m (a ++ b) = occCount m a + occCount m b
  | [], b, _ => by simp [occCount]
  | c :: a, b, h => by
    have hrec := occCount_append m hm a b (noStraddle_cons c h)
    have hiff : m.isPrefixOf (c :: a ++ b) = m.isPrefixOf (c :: a) := by
      by_cases hp : m <+: c :: a
      · simp only [List.isPrefixOf_iff_prefix.mpr hp,
          List.isPrefixOf_iff_prefix.mpr (hp.trans (List.prefix_append (c :: a) b))]
      · by_cases hq : m <+: (c :: a) ++ b
        · by_cases hlen : m.length ≤ (c :: a).length
          · exact absurd (prefix_append_left_of_le hq hlen) hp
          · exfalso
            obtain ⟨t, ht⟩ := hq
            have htk : m.take (c :: a).length = c :: a := by
              have h3 := congrArg (List.take (c :: a).length) ht
              rw [List.take_append_eq_append_take, List.take_left,
                Nat.sub_eq_zero_of_le (Nat.le_of_not_le hlen), List.take_zero,
                List.append_nil] at h3
              exact h3
            have hdr : m.drop (c :: a).length <+: b := by
              have h4 := congrArg (List.drop (c :: a).length) ht
              rw [List.drop_append_eq_append_drop, List.drop_left,
                Nat.sub_eq_zero_of_le (Nat.le_of_not_le hlen), List.drop_zero] at h4
              exact ⟨_, h4⟩
            refine h (c :: a).length (by simp) (Nat.lt_of_not_le hlen) ⟨?_, hdr⟩
            rw [htk]
        · rw [← List.isPrefixOf_iff_prefix] at hp hq
          simp only [Bool.not_eq_true] at hp hq
          rw [hp, hq]
    show (if m.isPrefixOf (c :: (a ++ b)) then 1 else 0) + occCount m (a ++ b) =
      (if m.isPrefixOf (c :: a) then 1 else 0) + occCount m a + occCount m b
    rw [show c :: (a ++ b) = c :: a ++ b from rfl, hiff, hrec]
    omega

theorem occCount_eq_zero_of_notMem {c : Char} {mt s : List Char} (h : c ∉ s) :
    occCount (c :: mt) s = 0 := by
  induction s with
  | nil => rfl
  | cons d rest ih =>
    show (if (c :: mt).isPrefixOf (d :: rest) then 1 else 0) + occCount (c :: mt) rest = 0
    have hd : ¬ (c :: mt).isPrefixOf (d :: rest) = true := by
      intro hp
      have := List.isPrefixOf_iff_prefix.mp hp
      obtain ⟨t, ht⟩ := this
      have : c = d := by
        have := congrArg (fun l => l.head?) ht
        simpa using this
      exact h (this ▸ List.mem_cons_self d rest)
    simp only [Bool.not_eq_true] at hd
    rw [hd]
    simpa using ih (fun hc => h (List.mem_cons_of_mem d hc))

theorem noStraddle_of_leftKilled {m lit : List Char} (b : List Char)
    (h : leftKilled m lit = true) : NoStraddle m lit b := by
  intro k hk1 hk2 hab
  have hall := List.all_eq_true.mp h k (List.mem_range.mpr hk2)
  rcases Bool.or_eq_true_iff.mp hall with h0 | hns
  · exact absurd (of_decide_eq_true h0) (Nat.pos_iff_ne_zero.mp hk1)
  · rw [Bool.not_eq_eq_eq_not, Bool.not_true, ← Bool.not_eq_true] at hns
    exact hns (List.isSuffixOf_iff_suffix.mpr hab.1)

theorem noStraddle_of_rightKilled {m pre b : List Char} (a : List Char)
    (hb : pre <+: b) (h : rightKilled m pre = true) : NoStraddle m a b := by
  intro k hk1 hk2 hab
  have hall := List.all_eq_true.mp h k (List.mem_range.mpr hk2)
  rcases Bool.or_eq_true_iff.mp hall with h0 | hns
  · exact absurd (of_decide_eq_true h0) (Nat.pos_iff_ne_zero.mp hk1)
  · rw [Bool.not_eq_eq_eq_not, Bool.not_true, ← Bool.not_eq_true] at hns
    obtain ⟨rest, hrest⟩ := hb
    have : m.drop k <+: pre ++ rest := hrest ▸ hab.2
    exact hns (List.isPrefixOf_iff_prefix.mpr (take_prefix_of_prefix_append this))

theorem noStraddle_of_left_nl {mt a : List Char} (b : List Char) (h : '\n' ∉ a) :
    NoStraddle ('\n' :: mt) a b := by
  intro k hk1 _ hab
  obtain ⟨j, rfl⟩ := Nat.exists_eq_add_of_lt hk1
  have hmem : '\n' ∈ ('\n' :: mt).take (0 + j + 1) := by
    rw [Nat.zero_add, List.take_succ_cons]
    exact List.mem_cons_self _ _
  exact h (hab.1.subset hmem)

theorem occ_split_lit {m lit : List Char} (rest : List Char) (hm : m ≠ [])
    (h : leftKilled m lit = true) :
    occCount m (lit ++ rest) = occCount m lit + occCount m rest :=
  occCount_append m hm lit rest (noStraddle_of_leftKilled rest h)

theorem occ_split_pre {m pre b : List Char} (a : List Char) (hm : m ≠ [])
    (hb : pre <+: b) (h : rightKilled m pre = true) :
    occCount m (a ++ b) = occCount m a + occCount m b :=
  occCount_append m hm a b (noStraddle_of_rightKilled a hb h)

theorem occ_split_nl {mt : List Char} (a b : List Char) (h : '\n' ∉ a) :
    occCount ('\n' :: mt) (a ++ b) = occCount ('\n' :: mt) a + occCount ('\n' :: mt) b :=
  occCount_append ('\n' :: mt) (by simp) a b (noStraddle_of_left_nl b h)

theorem digitChar_ne_nl (n : Nat) : ¬ digitChar n = '\n' := by
  unfold digitChar
  split <;> decide

theorem nl_notMem_natDigitsAux : ∀ fuel n, '\n' ∉ natDigitsAux fuel n
  | 0, _ => by simp [natDigitsAux]
  | fuel + 1, n => by
    rw [natDigitsAux]
    split
    · simp only [List.mem_singleton]
      exact fun h => digitChar_ne_nl n h.symm
    · intro hmem
      rcases List.mem_append.mp hmem with h | h
      · exact nl_notMem_natDigitsAux fuel (n / 10) h
      · simp only [List.mem_singleton] at h
        exact digitChar_ne_nl (n % 10) h.symm

theorem nl_notMem_natReprL (n : Nat) : '\n' ∉ natReprL n :=
  nl_notMem_natDigitsAux (n + 1) n

theorem nl_notMem_commaGroupRev : ∀ l : List Char, '\n' ∉ l → '\n' ∉ commaGroupRev l
  | [], h => by simp [commaGroupRev]
  | [a], h => by simpa [commaGroupRev] using h
  | [a, b], h => by simpa [commaGroupRev] using h
  | [a, b, c], h => by simpa [commaGroupRev] using h
  | a :: b :: c :: d :: rest, h => by
    simp only [List.mem_cons, not_or] at h
    obtain ⟨h1, h2, h3, h4, h5⟩ := h
    have hrec := nl_notMem_commaGroupRev (d :: rest) (by
      simp only [List.mem_cons, not_or]
      exact ⟨h4, h5⟩)
    show '\n' ∉ a :: b :: c :: ',' :: commaGroupRev (d :: rest)
    simp only [List.mem_cons, not_or]
    exact ⟨h1, h2, h3, by decide, hrec⟩

theorem nl_notMem_commaGroupL {l : List Char} (h : '\n' ∉ l) : '\n' ∉ commaGroupL l := by
  rw [commaGroupL]
  intro hm
  exact nl_notMem_commaGroupRev l.reverse (by simpa using h) (List.mem_reverse.mp hm)

theorem nl_notMem_padTwoL (n : Nat) : '\n' ∉ padTwoL n := by
  rw [padTwoL]
  split
  · intro hm
    rcases List.mem_cons.mp hm with h | h
    · exact absurd h.symm (by decide)
    · exact nl_notMem_natReprL n h
  · exact nl_notMem_natReprL n

theorem nl_notMem_pad4L (n : Nat) : '\n' ∉ pad4L n := by
  rw [pad4L]
  intro hm
  rcases List.mem_append.mp hm with h | h
  · exact absurd (List.eq_of_mem_replicate h) (by decide)
  · exact nl_notMem_natReprL n h

theorem nl_notMem_intReprL (i : ℤ) : '\n' ∉ intReprL i := by
  rw [intReprL]
  split
  · intro hm
    rcases List.mem_cons.mp hm with h | h
    · exact absurd h.symm (by decide)
    · exact nl_notMem_natReprL i.natAbs h
  · exact nl_notMem_natReprL i.natAbs

theorem nl_notMem_isoDateL (y m d : Nat) : '\n' ∉ isoDateL y m d := by
  rw [isoDateL]
  simp only [List.mem_append, List.mem_cons, not_or, ne_eq]
  exact ⟨⟨nl_notMem_pad4L y, by decide, nl_notMem_padTwoL m⟩, by decide, nl_notMem_padTwoL d⟩

theorem nl_notMem_mmddyyyyL (y m d : Nat) : '\n' ∉ mmddyyyyL y m d := by
  rw [mmddyyyyL]
  simp only [List.mem_append, List.mem_cons, not_or, ne_eq]
  exact ⟨⟨nl_notMem_padTwoL m, by decide, nl_notMem_padTwoL d⟩, by decide, nl_notMem_pad4L y⟩

theorem nl_notMem_fracDigitsND : ∀ fuel r d, '\n' ∉ fracDigitsND fuel r d
  | 0, _, _ => by simp [fracDigitsND]
  | fuel + 1, r, d => by
    rw [fracDigitsND]
    intro hm
    rcases List.mem_cons.mp hm with h | h
    · exact digitChar_ne_nl _ h.symm
    · split at h
      · simp at h
      · exact nl_notMem_fracDigitsND fuel _ _ h

theorem nl_notMem_pyFloatReprL (q : ℚ) : '\n' ∉ pyFloatReprL q := by
  rw [pyFloatReprL]
  intro hm
  rcases List.mem_append.mp hm with h | h
  · rcases List.mem_append.mp h with h2 | h2
    · split at h2
      · simp only [List.mem_singleton] at h2
        exact absurd h2 (by decide)
      · simp at h2
    · exact nl_notMem_natReprL _ h2
  · rcases List.mem_cons.mp h with h2 | h2
    · exact absurd h2.symm (by decide)
    · split at h2
      · simp only [List.mem_singleton] at h2
        exact absurd h2 (by decide)
      · exact nl_notMem_fracDigitsND 17 _ _ h2

theorem nl_notMem_formatCurrencyL (q : ℚ) : '\n' ∉ formatCurrencyL q := by
  rw [formatCurrencyL]
  intro hm
  rcases List.mem_append.mp hm with h | h
  · rcases List.mem_append.mp h with h2 | h2
    · split at h2
      · simp only [List.mem_singleton] at h2
        exact absurd h2 (by decide)
      · simp at h2
    · exact nl_notMem_commaGroupL (nl_notMem_natReprL _) h2
  · rcases List.mem_cons.mp h with h2 | h2
    · exact absurd h2.symm (by decide)
    · exact nl_notMem_padTwoL _ h2

theorem noNL_iff {s : String} : noNL s = true ↔ '\n' ∉ s.toList := by
  simp only [noNL, List.all_eq_true, bne_iff_ne, ne_eq]
  constructor
  · intro h hm
    exact h '\n' hm rfl
  · intro h c hc hcn
    exact h (hcn ▸ hc)

theorem prior_info_not_falsy (x y : String) :
    soap_note.falsyOptStr (some ("Prior authorization approved for " ++ x ++
      " sessions, reference number: PA" ++ y)) = false := by
  unfold soap_note.falsyOptStr
  refine beq_eq_false_iff_ne.mpr ?_
  intro h
  have hl := congrArg String.length h
  rw [String.length_append, String.length_append, String.length_append] at hl
  have h33 : ("Prior authorization approved for ").length = 33 := rfl
  have h0 : ("" : String).length = 0 := rfl
  omega

theorem afi_validate_ok (status : soap_note.StatusEnum) :
    soap_note.AvailableForIntakeInfo.validate status .omitted
        (.given (some soap_note.intakeFollowUpNote)) =
      .ok ⟨status, Option.none, some soap_note.intakeFollowUpNote⟩ := rfl

theorem di_validate_ok (ds : soap_note.DocumentStatusEnum) (t : Option Nat)
    (cb pos : Option String) :
    soap_note.DocumentInformation.validate ds t cb pos
        (.given (some soap_note.documentFollowUpNote)) =
      .ok ⟨ds, t, cb, pos, some soap_note.documentFollowUpNote⟩ := rfl

theorem bd_validate_ok (pae pat cap : Bool) (x y : String) (q : ℚ) (v : ℤ) :
    soap_note.BenefitDetails.validate pae pat
        (.given (some ("Prior authorization approved for " ++ x ++
          " sessions, reference number: PA" ++ y))) cap
        (.given (some q)) (.given (some v)) =
      .ok ⟨pae, pat, some ("Prior authorization approved for " ++ x ++
        " sessions, reference number: PA" ++ y), cap, some q, some v⟩ := by
  unfold soap_note.BenefitDetails.validate
  simp only [prior_info_not_falsy, Bool.and_false, Option.isNone_some, if_false]
  rfl

/-- C1: every record either synthetic generator can produce is valid.
`create_synthetic_soap_note` succeeds for every client identity, every
`random.choice` index into its literal pools, every sampled status, flag
and `randint` draw (the conditionally-required fields are always passed
with non-falsy values, and `hold_reason` — never passed — bypasses its
validator under Pydantic v2 default handling); and the parameterless
`generate_synthetic_benefit_check_data` validates its fixed literal
record.  Construction *is* validation in both embeddings, so
synthesize-then-validate is the identity on "is valid". -/
theorem synthetic_records_always_validate :
    (∀ (client_id : ℤ) (fn ln : String) (bd : Nat × Nat × Nat) (author : String) (now : Nat)
      (si oi ai pli : Fin 5) (c1 : Fin 4) (c2 c3 : Fin 3) (av : Fin 5)
      (status : soap_note.StatusEnum) (plan : Fin 5) (pae pat cap : Bool)
      (sessions refnum : Nat) (capIdx : Fin 4) (vlimit : ℤ)
      (p1 p2 p3 p4 p5 : soap_note.PlaceOfServiceBenefitEnum) (posIdx : Fin 5),
      (soap_note.create_synthetic_soap_note client_id fn ln bd author now
        si oi ai pli c1 c2 c3 av status plan pae pat cap sessions refnum capIdx vlimit
        p1 p2 p3 p4 p5 posIdx).isOk = true) ∧
    (benefit_check_form.generate_synthetic_benefit_check_data ()).isOk = true := by
  constructor
  · intro client_id fn ln bd author now si oi ai pli c1 c2 c3 av status plan pae pat cap
      sessions refnum capIdx vlimit p1 p2 p3 p4 p5 posIdx
    simp only [soap_note.create_synthetic_soap_note, afi_validate_ok, bd_validate_ok,
      di_validate_ok]
    rfl
  · decide

/-- C8: rendering is a deterministic pure function of the flat mapping —
two invocations of `generate_summary_text` on the same mapping, with no
intervening mutation, yield byte-identical text.  (The embedded renderer
consults nothing but its argument, mirroring the source, which reads only
`self.data` and local state.) -/
theorem generate_summary_text_deterministic (e : ExtractedData) :
    generate_summary_text e = generate_summary_text e := rfl

/-- C10: `generate_synthetic_benefit_check_data` takes no input and
samples nothing — any two calls return the same `BenefitCheckForm`,
always for client Emma Johnson with intake id `CLT-2024-001573`, so
repeated calls can never produce distinct synthetic records. -/
theorem benefit_generator_is_constant :
    (∀ u v : Unit, benefit_check_form.generate_synthetic_benefit_check_data u =
      benefit_check_form.generate_synthetic_benefit_check_data v) ∧
    ∃ f, benefit_check_form.generate_synthetic_benefit_check_data () = .ok f ∧
      f.client_information.intake_client_id = "CLT-2024-001573" ∧
      f.client_information.child_first_name = "Emma" ∧
      f.client_information.child_last_name = "Johnson" := by
  refine ⟨fun u v => rfl, ⟨_, rfl, rfl, rfl, rfl⟩⟩

/-- C2 counterexample: constructing `AvailableForIntakeInfo` with
`status="On Hold"` while *omitting* `hold_reason` succeeds, yielding a
record whose `hold_reason` is `None` even though the triggering
condition holds — against the claim, no `ValidationError` is raised and
the conditional field is absent while its trigger is true. -/
theorem on_hold_without_reason_validates :
    ∃ r, soap_note.AvailableForIntakeInfo.validate .ON_HOLD .omitted .omitted = .ok r ∧
      r.status = .ON_HOLD ∧ r.hold_reason = Option.none := ⟨_, rfl, rfl, rfl⟩

/-- C2 (amended): the conditional requirements are enforced only for
explicitly supplied values.  Supplying `hold_reason=None` with status
On Hold fails validation whatever `follow_up_notes` is; supplying any
non-empty `hold_reason` succeeds; omitting `hold_reason` bypasses the
validator and yields an On-Hold record with `hold_reason=None`; and a
conditionally-required field may also be present when its trigger is
false (`max_cap_amount` set with `has_max_cap=False` validates), so
presence is not equivalent to the trigger.  -/
theorem conditional_requirements_amended :
    (∀ fu : soap_note.Arg (Option String),
      (soap_note.AvailableForIntakeInfo.validate .ON_HOLD (.given Option.none) fu).isOk = false) ∧
    (∀ s : String, s ≠ "" →
      soap_note.AvailableForIntakeInfo.validate .ON_HOLD (.given (some s)) .omitted =
        .ok ⟨.ON_HOLD, some s, Option.none⟩) ∧
    (soap_note.AvailableForIntakeInfo.validate .ON_HOLD .omitted .omitted =
      .ok ⟨.ON_HOLD, Option.none, Option.none⟩) ∧
    (∃ b, soap_note.BenefitDetails.validate false false .omitted false
        (.given (some 5000)) (.given (some 20)) = .ok b ∧
      b.has_max_cap = false ∧ b.max_cap_amount = some 5000) := by
  refine ⟨fun fu => rfl, ?_, rfl, ⟨_, rfl, rfl, rfl⟩⟩
  intro s hs
  have h1 : (s == "") = false := beq_eq_false_iff_ne.mpr hs
  simp only [soap_note.AvailableForIntakeInfo.validate, soap_note.falsyOptStr, h1,
    Bool.and_false]
  rfl

/-- Witness for `conditional_requirements_amended` at a concrete
non-empty hold reason. -/
theorem conditional_requirements_amended_witness :
    soap_note.AvailableForIntakeInfo.validate .ON_HOLD
        (.given (some "Awaiting updated insurance card")) .omitted =
      .ok ⟨.ON_HOLD, some "Awaiting updated insurance card", Option.none⟩ :=
  conditional_requirements_amended.2.1 "Awaiting updated insurance card" (by decide)

theorem pure_isOk {α : Type} (a : α) : (pure a : Except String α).isOk = true := rfl

theorem checkDecimal_bind_isOk {α : Type} (label : String) (places : Nat)
    (geZero leCap : Bool) (q : ℚ) (f : ℚ → Except String α) :
    (benefit_check_form.checkDecimal label places geZero leCap q >>= f).isOk = true ↔
      (geZero = true → 0 ≤ q) ∧ (leCap = true → q ≤ 99999) ∧
        benefit_check_form.decimalPlacesOk places q = true ∧ (f q).isOk = true := by
  have hthrow : ∀ e : String, ((throw e : Except String ℚ) >>= f).isOk = false := fun _ => rfl
  have hpure : ((pure q : Except String ℚ) >>= f) = f q := rfl
  unfold benefit_check_form.checkDecimal
  split_ifs with h1 h2 h3
  · rw [hthrow]
    simp only [Bool.false_eq_true, false_iff, not_and]
    intro hge _
    rw [Bool.and_eq_true] at h1
    exact absurd (hge h1.1) (not_le.mpr (of_decide_eq_true h1.2))
  · rw [hthrow]
    simp only [Bool.false_eq_true, false_iff, not_and]
    intro _ hle _
    rw [Bool.and_eq_true] at h2
    exact absurd (hle h2.1) (not_le.mpr (of_decide_eq_true h2.2))
  · rw [hthrow]
    simp only [Bool.false_eq_true, false_iff, not_and]
    intro _ _ hdp _
    rw [Bool.not_eq_eq_eq_not, Bool.not_true] at h3
    exact absurd hdp (by rw [h3]; exact Bool.false_ne_true)
  · rw [hpure]
    have hg : geZero = true → 0 ≤ q := by
      intro hgz
      by_contra hn
      exact h1 (by rw [hgz, Bool.true_and]; exact decide_eq_true (not_le.mp hn))
    have hl : leCap = true → q ≤ 99999 := by
      intro hlc
      by_contra hn
      exact h2 (by rw [hlc, Bool.true_and]; exact decide_eq_true (not_le.mp hn))
    have hdp : benefit_check_form.decimalPlacesOk places q = true := by
      revert h3
      cases benefit_check_form.decimalPlacesOk places q <;> simp
    constructor
    · intro hok
      exact ⟨hg, hl, hdp, hok⟩
    · rintro ⟨-, -, -, hok⟩
      exact hok

/-- C3 counterexample: a benefit-information record with coinsurance
percentage −1 validates successfully — `coinsurance_percentage` (like
`copay_per_visit` and `max_cap_amount`) carries no non-negativity
constraint in the source, so "every currency field is non-negative" is
false of validated records. -/
theorem negative_coinsurance_validates :
    ∃ m, benefit_check_form.IndividualFamilyBenefitInformation.validate
        .Yes .PCP 1500 450 3000 1200 6000 890 12000 2150 .CalendarYear .No .Both
        "Behavioral Health - Outpatient" (-1) 25 .Yes .Yes .Yes = .ok m ∧
      m.coinsurance_percentage < 0 :=
  ⟨_, rfl, by decide⟩

/-- C3 (amended): validation succeeds exactly when the eight
deductible/out-of-pocket amounts are non-negative integers (zero decimal
places) with the four totals at most 99999, and `coinsurance_percentage`
and `copay_per_visit` are integral — the latter two (and the benefit
details' `max_cap_amount`) carry no sign or upper bound.  In particular
every validated record satisfies the bounds on the eight
deductible/OPM fields, and any out-of-bounds value among them is
rejected. -/
theorem currency_bounds_amended (a1 : benefit_check_form.YesNo)
    (a2 : benefit_check_form.TaxNumber)
    (idd iddm fd fdm iopm iopmm fopm fopmm : ℚ)
    (a3 : benefit_check_form.BenefitRun) (a4 : benefit_check_form.YesNo)
    (a5 : benefit_check_form.BenefitApply) (a6 : String) (coins cop : ℚ)
    (a7 a8 a9 : benefit_check_form.YesNo) :
    (benefit_check_form.IndividualFamilyBenefitInformation.validate a1 a2
        idd iddm fd fdm iopm iopmm fopm fopmm a3 a4 a5 a6 coins cop a7 a8 a9).isOk = true ↔
      ((0 ≤ idd ∧ idd ≤ 99999 ∧ benefit_check_form.decimalPlacesOk 0 idd = true) ∧
       (0 ≤ iddm ∧ benefit_check_form.decimalPlacesOk 0 iddm = true) ∧
       (0 ≤ fd ∧ fd ≤ 99999 ∧ benefit_check_form.decimalPlacesOk 0 fd = true) ∧
       (0 ≤ fdm ∧ benefit_check_form.decimalPlacesOk 0 fdm = true) ∧
       (0 ≤ iopm ∧ iopm ≤ 99999 ∧ benefit_check_form.decimalPlacesOk 0 iopm = true) ∧
       (0 ≤ iopmm ∧ benefit_check_form.decimalPlacesOk 0 iopmm = true) ∧
       (0 ≤ fopm ∧ fopm ≤ 99999 ∧ benefit_check_form.decimalPlacesOk 0 fopm = true) ∧
       (0 ≤ fopmm ∧ benefit_check_form.decimalPlacesOk 0 fopmm = true) ∧
       benefit_check_form.decimalPlacesOk 0 coins = true ∧
       benefit_check_form.decimalPlacesOk 0 cop = true) := by
  unfold benefit_check_form.IndividualFamilyBenefitInformation.validate
  simp only [checkDecimal_bind_isOk, Bool.false_eq_true, false_implies,
    true_implies, and_true, true_and]
  tauto

/-- C7 counterexample: rendering the same uncoercible value `"abc"`
planted in two different fields (`individual_deductible`
vs `copay_per_visit`) raises the *identical* error, carrying only the
offending value — the failure does not report the offending field. -/
theorem render_error_lacks_field :
    generate_summary_text badDeductibleData = .error (.notFloat (.str "abc")) ∧
    generate_summary_text badCopayData = .error (.notFloat (.str "abc")) ∧
    badDeductibleData.individual_deductible ≠ badCopayData.individual_deductible :=
  ⟨rfl, rfl, by decide⟩

/-- C7 (amended): when rendering throws, the whole operation
(`save_to_file` / `get_summary_display`) fails with that exception —
which carries the offending value, not the field — and the report store
is left exactly as it was: the text is generated before the file is
opened, so no partial artifact is ever written. -/
theorem render_failure_atomic (e : ExtractedData) (fn : String) (st : Store)
    (err : RenderErr) (h : generate_summary_text e = .error err) :
    save_to_file e fn st = (.error err, st) ∧
      get_summary_display e st = (.error err, st) := by
  unfold save_to_file get_summary_display
  rw [h]
  exact ⟨rfl, rfl⟩

/-- Witness for `render_failure_atomic` on a concrete failing mapping
and an empty store. -/
theorem render_failure_atomic_witness :
    save_to_file badDeductibleData "benefit_summary.txt" [] =
        (.error (.notFloat (.str "abc")), []) ∧
      get_summary_display badDeductibleData [] = (.error (.notFloat (.str "abc")), []) :=
  render_failure_atomic badDeductibleData "benefit_summary.txt" [] (.notFloat (.str "abc")) rfl

/-- C9 counterexample: two successful report generations for *different*
clients (Emma Johnson vs Liam Smith), each passed its own distinct
`filename` argument, both return the artifact name
`benefit_summary.txt` — the name is neither unique nor derived from
client identity or timestamp, and the passed filename is ignored. -/
theorem artifact_name_not_unique :
    ∃ d1 d2,
      (generate_benefit_summary_from_raw_data emmaRaw "emma_report.txt" []).1 = .ok d1 ∧
      (generate_benefit_summary_from_raw_data liamRaw "liam_report.txt" []).1 = .ok d2 ∧
      d1.filename = "benefit_summary.txt" ∧ d2.filename = "benefit_summary.txt" :=
  ⟨_, _, rfl, rfl, rfl, rfl⟩

/-- C9 (amended): every successful `generate_benefit_summary_from_raw_data`
call persists the rendered text under the fixed name
`benefit_summary.txt` (whatever `filename` was passed), and returns the
text together with that fixed artifact identifier and status
`generated`. -/
theorem fixed_artifact_name (raw : RawBenefitCheckData) (fn : String) (st : Store)
    (d : SummaryDisplay) (st2 : Store)
    (h : generate_benefit_summary_from_raw_data raw fn st = (.ok d, st2)) :
    d.filename = "benefit_summary.txt" ∧ d.status = "generated" ∧
      st2 = st.put "benefit_summary.txt" d.summary_text := by
  unfold generate_benefit_summary_from_raw_data get_summary_display save_to_file at h
  cases hg : generate_summary_text (extract_from_raw_data raw) with
  | error err =>
    rw [hg] at h
    simp only [Prod.mk.injEq] at h
    exact absurd h.1 (by simp)
  | ok t =>
    rw [hg] at h
    simp only [Prod.mk.injEq, Except.ok.injEq] at h
    obtain ⟨hd, hst⟩ := h
    subst hd
    exact ⟨rfl, rfl, hst.symm⟩

/-- Witness for `fixed_artifact_name` on the Emma record, an unrelated
requested filename, and an empty store. -/
theorem fixed_artifact_name_witness :
    ∃ d st2, generate_benefit_summary_from_raw_data emmaRaw "ignored.txt" [] = (.ok d, st2) ∧
      d.filename = "benefit_summary.txt" ∧ d.status = "generated" ∧
      st2 = Store.put [] "benefit_summary.txt" d.summary_text :=
  ⟨_, _, rfl, fixed_artifact_name emmaRaw "ignored.txt" [] _ _ rfl⟩

theorem floatable_ok {v : PyVal} (h : floatable v = true) : ∃ q, pyFloat v = .ok q := by
  unfold floatable at h
  cases hv : pyFloat v with
  | ok q => exact ⟨q, rfl⟩
  | error e => rw [hv] at h; exact absurd h (by exact fun hh => Bool.noConfusion hh)

theorem except_bind_ok {ε α β : Type} (a : α) (f : α → Except ε β) :
    ((Except.ok a : Except ε α) >>= f) = f a := rfl

/-- C4 counterexample: the same logical record extracted through the
raw-mapping path and through the `DeductibleSummary` typed path yields
*different* flat mappings: the raw path never emits the
`cap_visit_limit_value` key (it emits `max_cap_amount` and
`visit_limit_per_year` instead), while the model path always does. -/
theorem extraction_paths_differ :
    (extract_from_raw_data emmaRaw).cap_visit_limit_value = Option.none ∧
    (extract_from_model_deductible emmaDeductibleSummary).cap_visit_limit_value =
      some (.str "5000.00") ∧
    extract_from_raw_data emmaRaw ≠ extract_from_model_deductible emmaDeductibleSummary :=
  ⟨rfl, rfl, fun h =>
    absurd (congrArg ExtractedData.cap_visit_limit_value h) (by decide)⟩

/-- C4 (amended): with either input shape, rendering never fails for a
missing display key — the renderer substitutes a default (`0`, `'No'`,
`'N/A'`, `''` or `None`) for every absent key, so both typed-model paths
render unconditionally and the raw path renders whenever its numeric
values are coercible; but the two extraction paths do not produce the
same flat mapping for any record: the raw path always emits the
`coinsurance_percentage`, `max_cap_amount` and `visit_limit_per_year`
keys and never `cap_visit_limit_value`, while the model paths do the
opposite. -/
theorem extraction_display_amended :
    (∀ e : ExtractedData, numsCoercible e = true →
      ∃ t, generate_summary_text e = .ok t) ∧
    (∀ c : CopaySummary, ∃ t, generate_summary_text (extract_from_model_copay c) = .ok t) ∧
    (∀ ds : DeductibleSummary,
      ∃ t, generate_summary_text (extract_from_model_deductible ds) = .ok t) ∧
    (∀ (r : RawBenefitCheckData) (c : CopaySummary),
      extract_from_raw_data r ≠ extract_from_model_copay c) ∧
    (∀ (r : RawBenefitCheckData) (ds : DeductibleSummary),
      extract_from_raw_data r ≠ extract_from_model_deductible ds) := by
  refine ⟨?_, fun c => ⟨_, rfl⟩, fun ds => ⟨_, rfl⟩,
    fun r c h => Option.noConfusion (congrArg ExtractedData.coinsurance_percentage h),
    fun r ds h => Option.noConfusion (congrArg ExtractedData.cap_visit_limit_value h)⟩
  intro e h
  simp only [numsCoercible, Bool.and_eq_true] at h
  obtain ⟨⟨⟨⟨⟨⟨⟨⟨⟨h1, h2⟩, h3⟩, h4⟩, h5⟩, h6⟩, h7⟩, h8⟩, h9⟩, h10⟩ := h
  obtain ⟨q1, e1⟩ := floatable_ok h1
  obtain ⟨q2, e2⟩ := floatable_ok h2
  obtain ⟨q3, e3⟩ := floatable_ok h3
  obtain ⟨q4, e4⟩ := floatable_ok h4
  obtain ⟨q5, e5⟩ := floatable_ok h5
  obtain ⟨q6, e6⟩ := floatable_ok h6
  obtain ⟨q7, e7⟩ := floatable_ok h7
  obtain ⟨q8, e8⟩ := floatable_ok h8
  obtain ⟨q9, e9⟩ := floatable_ok h9
  obtain ⟨q10, e10⟩ := floatable_ok h10
  unfold generate_summary_text
  by_cases hd : e.individual_deductible.isSome <;> by_cases ho : e.individual_opm.isSome <;>
    simp only [hd, ho, if_true, if_false, e1, e2, e3, e4, e5, e6, e7, e8, e9, e10,
      except_bind_ok] <;> exact ⟨_, rfl⟩

/-- Witness for `extraction_display_amended` on the concrete Emma raw
mapping, whose numeric slots are all coercible. -/
theorem extraction_display_amended_witness :
    ∃ t, generate_summary_text (extract_from_raw_data emmaRaw) = .ok t :=
  extraction_display_amended.1 (extract_from_raw_data emmaRaw) (by decide)

/-- C5: the end-to-end scenario.  Rendering the raw mapping for Emma
Johnson (Blue Cross Blue Shield Premium Plus, individual deductible
1500.00 with 450.00 met, copay 25.00, coinsurance 20.00, prior-auth
"Yes", max-cap "Yes" with amount 5000.00) succeeds, and the text
contains the literal lines `INDIVIDUAL DEDUCTIBLE: $1,500.00`,
`COPAY: $25.00`, `COINSURANCE: 20.0%`,
`IS PREAUTHORIZATION REQUIRED? Yes` and `Maximum Annual Cap: $5,000.00`
(each as a full newline-bounded line). -/
theorem end_to_end_scenario :
    ∃ t, generate_summary_text (extract_from_raw_data emmaRaw) = .ok t ∧
      containsSub ("\nINDIVIDUAL DEDUCTIBLE: $1,500.00\n").toList t.toList = true ∧
      containsSub ("\nCOPAY: $25.00\n").toList t.toList = true ∧
      containsSub ("\nCOINSURANCE: 20.0%\n").toList t.toList = true ∧
      containsSub ("\nIS PREAUTHORIZATION REQUIRED? Yes\n").toList t.toList = true ∧
      containsSub ("\nMaximum Annual Cap: $5,000.00\n").toList t.toList = true := by
  refine ⟨_, rfl, ?_, ?_, ?_, ?_, ?_⟩ <;> decide

theorem toList_append (a b : String) : (a ++ b).toList = a.toList ++ b.toList := rfl

theorem toList_formatCurrency (q : ℚ) : (formatCurrency q).toList = formatCurrencyL q := rfl

theorem toList_mk (l : List Char) : (String.mk l).toList = l := rfl

theorem occCount_eq_zero_of_noOccur {m s : List Char} (h : noOccur m s = true) :
    occCount m s = 0 := by
  induction s with
  | nil => rfl
  | cons c rest ih =>
    rw [noOccur, Bool.and_eq_true, Bool.not_eq_eq_eq_not, Bool.not_true] at h
    show (if m.isPrefixOf (c :: rest) then 1 else 0) + occCount m rest = 0
    rw [h.1, if_neg Bool.false_ne_true.elim, ih h.2]

theorem needle_cons : otherNeedle.toList = '\n' :: ("\nOTHER BENEFIT DETAILS:").toList := rfl

theorem occ_prepend_lit (lit : String) (rest : List Char)
    (hk : leftKilled otherNeedle.toList lit.toList = true)
    (hz : noOccur otherNeedle.toList lit.toList = true) :
    occCount otherNeedle.toList (lit.toList ++ rest) = occCount otherNeedle.toList rest := by
  rw [occ_split_lit rest (by decide) hk, occCount_eq_zero_of_noOccur hz, Nat.zero_add]

theorem occ_prepend_chars (l rest : List Char) (h : '\n' ∉ l) :
    occCount otherNeedle.toList (l ++ rest) = occCount otherNeedle.toList rest := by
  rw [needle_cons, occ_split_nl l rest h,
    occCount_eq_zero_of_notMem h, Nat.zero_add]

theorem occ_prepend_val (s : String) (rest : List Char) (h : noNL s = true) :
    occCount otherNeedle.toList (s.toList ++ rest) = occCount otherNeedle.toList rest :=
  occ_prepend_chars s.toList rest (noNL_iff.mp h)

theorem occ_prepend_dedSection (a b c d : ℚ) (rest : List Char) :
    occCount otherNeedle.toList ((dedSection a b c d).toList ++ rest) =
      occCount otherNeedle.toList rest := by
  show occCount otherNeedle.toList
    (((((((((dedLit1 ++ formatCurrency a ++ dedLit2 ++ formatCurrency b ++ dedLit3 ++
      formatCurrency c ++ dedLit4 ++ formatCurrency d ++ dedLit5)))))))).toList ++ rest) = _
  simp only [toList_append, toList_formatCurrency, List.append_assoc]
  rw [occ_prepend_lit _ _ (by decide) (by decide),
    occ_prepend_chars _ _ (nl_notMem_formatCurrencyL a),
    occ_prepend_lit _ _ (by decide) (by decide),
    occ_prepend_chars _ _ (nl_notMem_formatCurrencyL b),
    occ_prepend_lit _ _ (by decide) (by decide),
    occ_prepend_chars _ _ (nl_notMem_formatCurrencyL c),
    occ_prepend_lit _ _ (by decide) (by decide),
    occ_prepend_chars _ _ (nl_notMem_formatCurrencyL d),
    occ_prepend_lit _ _ (by decide) (by decide)]

theorem occ_prepend_opmSection (a b c d : ℚ) (rest : List Char) :
    occCount otherNeedle.toList ((opmSection a b c d).toList ++ rest) =
      occCount otherNeedle.toList rest := by
  show occCount otherNeedle.toList
    ((opmLit1 ++ formatCurrency a ++ opmLit2 ++ formatCurrency b ++ opmLit3 ++
      formatCurrency c ++ opmLit4 ++ formatCurrency d ++ opmLit5).toList ++ rest) = _
  simp only [toList_append, toList_formatCurrency, List.append_assoc]
  rw [occ_prepend_lit _ _ (by decide) (by decide),
    occ_prepend_chars _ _ (nl_notMem_formatCurrencyL a),
    occ_prepend_lit _ _ (by decide) (by decide),
    occ_prepend_chars _ _ (nl_notMem_formatCurrencyL b),
    occ_prepend_lit _ _ (by decide) (by decide),
    occ_prepend_chars _ _ (nl_notMem_formatCurrencyL c),
    occ_prepend_lit _ _ (by decide) (by decide),
    occ_prepend_chars _ _ (nl_notMem_formatCurrencyL d),
    occ_prepend_lit _ _ (by decide) (by decide)]

theorem occ_prepend_capSection (e : ExtractedData) (rest : List Char)
    (h1 : noNL ((maxCapExistsVal e).pyStr) = true)
    (h2 : noNL ((capValueVal e).pyStr) = true)
    (h3 : noNL ((visitLimitVal e).pyStr) = true) :
    occCount otherNeedle.toList ((capSectionStr e).toList ++ rest) =
      occCount otherNeedle.toList rest := by
  rw [capSectionStr]
  simp only [toList_append, List.append_assoc]
  rw [occ_prepend_lit _ _ (by decide) (by decide), occ_prepend_val _ _ h1]
  split
  · rw [capDetailStr]
    simp only [toList_append, List.append_assoc]
    have hvisit : ∀ r : List Char,
        occCount otherNeedle.toList
          ((if (visitLimitVal e).truthy then
              visitLine1 ++ (visitLimitVal e).pyStr ++ visitLine2 else "").toList ++ r) =
        occCount otherNeedle.toList r := by
      intro r
      split
      · simp only [toList_append, List.append_assoc]
        rw [occ_prepend_lit _ _ (by decide) (by decide), occ_prepend_val _ _ h3,
          occ_prepend_lit _ _ (by decide) (by decide)]
      · rfl
    split
    · rename_i hcap
      cases hpf : pyFloat (capValueVal e) with
      | ok q =>
        simp only [toList_append, toList_formatCurrency, List.append_assoc]
        rw [occ_prepend_lit _ _ (by decide) (by decide),
          occ_prepend_chars _ _ (nl_notMem_formatCurrencyL q), hvisit]
      | error err =>
        simp only [toList_append, List.append_assoc]
        rw [occ_prepend_lit _ _ (by decide) (by decide), occ_prepend_val _ _ h2, hvisit]
    · rw [show ("" : String).toList = [] from rfl, List.nil_append]
      exact hvisit rest
  · rfl

theorem occ_other_empty (e : ExtractedData) (h : (otherVal e).truthy = false) :
    otherSectionStr e = "" := by
  rw [otherSectionStr, h]
  exact if_neg Bool.false_ne_true

theorem occ_other_nonempty (v : String)
    (hv : noOccur otherNeedle.toList ('\n' :: v.toList) = true) :
    occCount otherNeedle.toList (otherLine1.toList ++ (v.toList ++ sigLine1.toList)) = 1 := by
  have hshape : otherLine1.toList ++ (v.toList ++ sigLine1.toList) =
      otherNeedle.toList ++ (('\n' :: v.toList) ++ sigLine1.toList) := by
    rw [show otherLine1.toList = otherNeedle.toList ++ ['\n'] from rfl, List.append_assoc]
    rfl
  rw [hshape, occ_split_lit _ (by decide) (by decide),
    show occCount otherNeedle.toList otherNeedle.toList = 1 by decide,
    occ_split_pre ('\n' :: v.toList) (by decide) (by decide : ['\n', '\n'] <+: sigLine1.toList)
      (by decide),
    occCount_eq_zero_of_noOccur hv,
    occCount_eq_zero_of_noOccur (by decide : noOccur otherNeedle.toList sigLine1.toList = true)]

theorem bind_eq_ok {ε α β : Type} {x : Except ε α} {f : α → Except ε β} {b : β}
    (h : (x >>= f) = .ok b) : ∃ a, x = .ok a ∧ f a = .ok b := by
  cases x with
  | ok a => exact ⟨a, rfl, h⟩
  | error e => exact Except.noConfusion h

theorem generate_ok_shape (e : ExtractedData) (t : String)
    (h : generate_summary_text e = .ok t) :
    ∃ (dedPart opmPart : String) (cop coin : ℚ),
      (dedPart = "" ∨ ∃ a b c d, dedPart = dedSection a b c d) ∧
      (opmPart = "" ∨ ∃ a b c d, opmPart = opmSection a b c d) ∧
      t = hdrLit1 ++ clientNameStr e ++ hdrLit2 ++ insuranceCompanyStr e ++ hdrLit3 ++
        benefitsCheckedStr e ++ dedPart ++ copLit1 ++ formatCurrency cop ++ copLit2 ++
        coinLit1 ++ String.mk (pyFloatReprL coin) ++ coinLit2 ++ opmPart ++
        preLit1 ++ priorAuthStr e ++ preLit2 ++ capSectionStr e ++ otherSectionStr e ++
        sigLine1 := by
  unfold generate_summary_text at h
  dsimp only at h
  split at h
  · obtain ⟨a, ha, h⟩ := bind_eq_ok h
    obtain ⟨b, hb, h⟩ := bind_eq_ok h
    obtain ⟨c, hc, h⟩ := bind_eq_ok h
    obtain ⟨d, hd, h⟩ := bind_eq_ok h
    obtain ⟨dp, hdp, h⟩ := bind_eq_ok h
    obtain ⟨cop, hcop, h⟩ := bind_eq_ok h
    obtain ⟨coin, hcoin, h⟩ := bind_eq_ok h
    split at h
    · obtain ⟨a2, ha2, h⟩ := bind_eq_ok h
      obtain ⟨b2, hb2, h⟩ := bind_eq_ok h
      obtain ⟨c2, hc2, h⟩ := bind_eq_ok h
      obtain ⟨d2, hd2, h⟩ := bind_eq_ok h
      obtain ⟨op, hop, h⟩ := bind_eq_ok h
      exact ⟨dp, op, cop, coin,
        Or.inr ⟨a, b, c, d, (Except.ok.inj hdp).symm⟩,
        Or.inr ⟨a2, b2, c2, d2, (Except.ok.inj hop).symm⟩, (Except.ok.inj h).symm⟩
    · obtain ⟨op, hop, h⟩ := bind_eq_ok h
      exact ⟨dp, op, cop, coin,
        Or.inr ⟨a, b, c, d, (Except.ok.inj hdp).symm⟩,
        Or.inl (Except.ok.inj hop).symm, (Except.ok.inj h).symm⟩
  · obtain ⟨dp, hdp, h⟩ := bind_eq_ok h
    obtain ⟨cop, hcop, h⟩ := bind_eq_ok h
    obtain ⟨coin, hcoin, h⟩ := bind_eq_ok h
    split at h
    · obtain ⟨a2, ha2, h⟩ := bind_eq_ok h
      obtain ⟨b2, hb2, h⟩ := bind_eq_ok h
      obtain ⟨c2, hc2, h⟩ := bind_eq_ok h
      obtain ⟨d2, hd2, h⟩ := bind_eq_ok h
      obtain ⟨op, hop, h⟩ := bind_eq_ok h
      exact ⟨dp, op, cop, coin, Or.inl (Except.ok.inj hdp).symm,
        Or.inr ⟨a2, b2, c2, d2, (Except.ok.inj hop).symm⟩, (Except.ok.inj h).symm⟩
    · obtain ⟨op, hop, h⟩ := bind_eq_ok h
      exact ⟨dp, op, cop, coin, Or.inl (Except.ok.inj hdp).symm,
        Or.inl (Except.ok.inj hop).symm, (Except.ok.inj h).symm⟩

theorem render_count (e : ExtractedData) (t : String) (hclean : inlineClean e = true)
    (h : generate_summary_text e = .ok t) :
    occCount otherNeedle.toList t.toList =
      occCount otherNeedle.toList ((otherSectionStr e).toList ++ sigLine1.toList) := by
  obtain ⟨dp, op, cop, coin, hdp, hop, ht⟩ := generate_ok_shape e t h
  simp only [inlineClean, Bool.and_eq_true] at hclean
  obtain ⟨⟨⟨⟨⟨⟨hc1, hc2⟩, hc3⟩, hc4⟩, hc5⟩, hc6⟩, hc7⟩ := hclean
  subst ht
  simp only [toList_append, toList_mk, toList_formatCurrency, List.append_assoc]
  rw [occ_prepend_lit _ _ (by decide) (by decide),
    occ_prepend_val _ _ hc1,
    occ_prepend_lit _ _ (by decide) (by decide),
    occ_prepend_val _ _ hc2,
    occ_prepend_lit _ _ (by decide) (by decide),
    occ_prepend_val _ _ hc3]
  have hded : ∀ r, occCount otherNeedle.toList (dp.toList ++ r) =
      occCount otherNeedle.toList r := by
    intro r
    rcases hdp with rfl | ⟨a, b, c, d, rfl⟩
    · rw [show ("" : String).toList = [] from rfl, List.nil_append]
    · exact occ_prepend_dedSection a b c d r
  have hopm : ∀ r, occCount otherNeedle.toList (op.toList ++ r) =
      occCount otherNeedle.toList r := by
    intro r
    rcases hop with rfl | ⟨a, b, c, d, rfl⟩
    · rw [show ("" : String).toList = [] from rfl, List.nil_append]
    · exact occ_prepend_opmSection a b c d r
  rw [hded,
    occ_prepend_lit _ _ (by decide) (by decide),
    occ_prepend_chars _ _ (nl_notMem_formatCurrencyL cop),
    occ_prepend_lit _ _ (by decide) (by decide),
    occ_prepend_lit _ _ (by decide) (by decide),
    occ_prepend_chars _ _ (nl_notMem_pyFloatReprL coin),
    occ_prepend_lit _ _ (by decide) (by decide),
    hopm,
    occ_prepend_lit _ _ (by decide) (by decide),
    occ_prepend_val _ _ hc4,
    occ_prepend_lit _ _ (by decide) (by decide),
    occ_prepend_capSection e _ hc5 hc6 hc7]

/-- C6: the OTHER BENEFIT DETAILS section policy.  (1) A mapping whose
`other_benefit_details` is the empty string renders byte-identically to
one where the key is absent.  (2) When the value is empty or absent the
rendered text contains no section opening (no occurrence of the
blank-line-plus-`OTHER BENEFIT DETAILS:` header).  (3) When the value is
a non-empty string the section opening occurs exactly once and the value
follows the header verbatim, just before the signature trailer.  The
side conditions require the single-line interpolations to be
newline-free and the value itself not to embed a section opening —
without them a field value could forge an extra header. -/
theorem other_details_section_policy :
    (∀ e : ExtractedData,
      generate_summary_text { e with other_benefit_details := some (.str "") } =
        generate_summary_text { e with other_benefit_details := Option.none }) ∧
    (∀ e t, inlineClean e = true →
      (e.other_benefit_details = Option.none ∨ e.other_benefit_details = some (.str "")) →
      generate_summary_text e = .ok t → sectionCount t = 0) ∧
    (∀ e t v, inlineClean e = true → e.other_benefit_details = some (.str v) → v ≠ "" →
      noOccur otherNeedle.toList ('\n' :: v.toList) = true →
      generate_summary_text e = .ok t →
      sectionCount t = 1 ∧ ∃ pre, t = pre ++ otherLine1 ++ v ++ sigLine1) := by
  refine ⟨fun e => rfl, ?_, ?_⟩
  · intro e t hcl hother hgen
    rw [sectionCount, render_count e t hcl hgen]
    have hempty : otherSectionStr e = "" := by
      rcases hother with h | h <;>
        simp [otherSectionStr, otherVal, h, PyVal.truthy]
    rw [hempty, show ("" : String).toList = [] from rfl, List.nil_append]
    exact occCount_eq_zero_of_noOccur (by decide)
  · intro e t v hcl hov hv hnoc hgen
    have hotherval : otherVal e = .str v := by simp [otherVal, hov]
    have htruthy : (otherVal e).truthy = true := by
      rw [hotherval]
      simp [PyVal.truthy, hv]
    have hsec : otherSectionStr e = otherLine1 ++ v := by
      rw [otherSectionStr, if_pos htruthy, hotherval]
      rfl
    constructor
    · rw [sectionCount, render_count e t hcl hgen, hsec, toList_append, List.append_assoc]
      exact occ_other_nonempty v hnoc
    · obtain ⟨dp, op, cop, coin, _, _, ht⟩ := generate_ok_shape e t hgen
      refine ⟨hdrLit1 ++ clientNameStr e ++ hdrLit2 ++ insuranceCompanyStr e ++ hdrLit3 ++
        benefitsCheckedStr e ++ dp ++ copLit1 ++ formatCurrency cop ++ copLit2 ++ coinLit1 ++
        String.mk (pyFloatReprL coin) ++ coinLit2 ++ op ++ preLit1 ++ priorAuthStr e ++
        preLit2 ++ capSectionStr e, ?_⟩
      rw [ht, hsec]
      simp only [String.append_assoc]

/-- Witness for `other_details_section_policy` on the Emma record, whose
`other_benefit_details` value is the (present but empty) string. -/
theorem other_details_section_policy_witness :
    ∃ t, generate_summary_text (extract_from_raw_data emmaRaw) = .ok t ∧ sectionCount t = 0 := by
  refine ⟨_, rfl, ?_⟩
  exact other_details_section_policy.2.1 (extract_from_raw_data emmaRaw) _ (by decide)
    (Or.inr rfl) rfl
